import Mathlib

/-!
Verification of the knowledge-graph pipeline of the sandi-bot repository.

The Python modules under `src/kg/` are shallowly embedded: each Python
function is translated into an executable Lean function of the same name
(module namespaces mirror the file names).  Python strings are modelled as
`String`/`List Char`; character classes (`str.isalnum`, `\w`, `\s`, ...)
are modelled over ASCII, which covers every string the pipeline and the
claims exercise.  The handful of regular expressions used by the code are
compiled by hand into deterministic matchers; wherever a greedy
sub-pattern is matched maximally without backtracking, the follow set of
the repetition is disjoint from the repeated character class, so the
maximal-munch translation is exact.
-/

set_option linter.unusedVariables false

namespace SandiBot

/-! ## Python string primitives (ASCII model) -/

/-- Python `\s` / `str.isspace` over ASCII. -/
def pyIsSpace (c : Char) : Bool :=
  c = ' ' || c = '\t' || c = '\n' || c = '\r' || c = '\x0b' || c = '\x0c'

/-- Python `str.isdigit` over ASCII. -/
def pyIsDigit (c : Char) : Bool := c.isDigit

/-- Python `str.isalpha` over ASCII. -/
def pyIsAlpha (c : Char) : Bool := c.isAlpha

/-- Python `str.isalnum` over ASCII. -/
def pyIsAlnum (c : Char) : Bool := c.isAlpha || c.isDigit

/-- Python regex `\w` over ASCII: alphanumeric or underscore. -/
def isWordCh (c : Char) : Bool := pyIsAlnum c || c = '_'

/-- Python `str.islower` for one character, over ASCII. -/
def pyIsLower (c : Char) : Bool := c.isLower

/-- Python `str.lower` for one character, over ASCII. -/
def pyToLower (c : Char) : Char := c.toLower

/-- Case-insensitive character comparison (Python `re.IGNORECASE` on ASCII). -/
def ciEq (a b : Char) : Bool := pyToLower a = pyToLower b

/-- Python `str.strip()` on a character list (ASCII whitespace). -/
def pyStripL (l : List Char) : List Char :=
  ((l.dropWhile pyIsSpace).reverse.dropWhile pyIsSpace).reverse

/-- Python `str.strip()`. -/
def pyStrip (s : String) : String := ⟨pyStripL s.data⟩

/-- One step of `re.sub(r"\s+", " ", s)`: collapse every whitespace run to a
single `' '`. -/
def collapseWs : List Char → List Char
  | [] => []
  | [c] => if pyIsSpace c then [' '] else [c]
  | c1 :: c2 :: cs =>
    if pyIsSpace c1 && pyIsSpace c2 then collapseWs (c2 :: cs)
    else (if pyIsSpace c1 then ' ' else c1) :: collapseWs (c2 :: cs)

/-- Python `str.lower()` over ASCII. -/
def pyLower (s : String) : String := ⟨s.data.map pyToLower⟩

/-- Python `sub in s` (substring containment) on character lists. -/
def containsSub (pat l : List Char) : Bool :=
  match l with
  | [] => pat.isEmpty
  | _ :: cs => pat.isPrefixOf l || containsSub pat cs

/-- Python `pat in s` for strings. -/
def strContains (s pat : String) : Bool := containsSub pat.data s.data

/-- Case-insensitive literal prefix: `some rest` when `pat` (compared through
`ciEq`) heads `l`. -/
def ciPre : List Char → List Char → Option (List Char)
  | [], l => some l
  | _ :: _, [] => none
  | p :: ps, c :: cs => if ciEq p c then ciPre ps cs else none

/-- Case-sensitive literal prefix. -/
def litPre : List Char → List Char → Option (List Char)
  | [], l => some l
  | _ :: _, [] => none
  | p :: ps, c :: cs => if p = c then litPre ps cs else none

/-- Regex `\s+`: `some rest` when at least one whitespace character heads `l`
(maximal munch; every use site has a non-whitespace follow set). -/
def wsPlus (l : List Char) : Option (List Char) :=
  match l with
  | [] => none
  | c :: cs => if pyIsSpace c then some (cs.dropWhile pyIsSpace) else none

/-- Regex `\s*` by maximal munch. -/
def wsStar (l : List Char) : List Char := l.dropWhile pyIsSpace

/-- Python `s.endswith(pat)`. -/
def endsWithL (pat l : List Char) : Bool := pat.isSuffixOf l

/-- Number of non-overlapping occurrences of `pat` (Python `str.count`),
with fuel for termination; `pat` is always nonempty at use sites. -/
def countSubGo (pat : List Char) : Nat → List Char → Nat
  | 0, _ => 0
  | _ + 1, [] => 0
  | fuel + 1, c :: cs =>
    if pat.isPrefixOf (c :: cs) then
      1 + countSubGo pat fuel (List.drop pat.length (c :: cs))
    else countSubGo pat fuel cs

def countSub (pat l : List Char) : Nat := countSubGo pat l.length l

/-- Python `"sep".join` on strings. -/
def pyJoin (sep : String) (parts : List String) : String :=
  String.intercalate sep parts

/-- CPython `str.splitlines` restricted to `'\n'` terminators (the only line
break the pipeline's inputs contain).  A trailing terminator does not open an
empty final line. -/
def splitlinesL : List Char → List (List Char)
  | [] => []
  | c :: cs =>
    if c = '\n' then [] :: splitlinesL cs
    else
      match splitlinesL cs with
      | [] => [[c]]
      | line :: rest => (c :: line) :: rest

/-- Python slice `l[:k]` followed by `rsplit(" ", 1)[0]`: everything before
the last `' '`, the whole list when no space occurs. -/
def dropLastSpaceWord (l : List Char) : List Char :=
  if ' ' ∈ l then ((l.reverse.dropWhile (fun c => ¬ (c = ' '))).drop 1).reverse
  else l

end SandiBot

namespace SandiBot

/-! ## Regex helpers shared by `clean_text` and `extract_pdf`

Each matcher compiles one regular expression of the source by hand.  The
greedy pieces are matched maximally; this is exact because in every pattern
the character class of a repetition is disjoint from its follow set
(`[\w\s]+` is always followed by `'`, `\s+` by a letter or `(`, `\d{2,3}`
by `\s`, `)` or a word boundary). -/

/-- Tail `\s*:\s*.+` of the Do/Don't patterns: optional spaces, a colon, then
at least one character; `.` does not match `'\n'`, but a whitespace consumed
by the backtracking `\s*` may itself satisfy `.` when it is not a newline. -/
def hasDotPlus : List Char → Bool
  | [] => false
  | c :: cs => if c = '\n' then hasDotPlus cs else true

/-- `\s*:` — optional spaces then a literal colon, returning the rest. -/
def colonAfterWs (l : List Char) : Option (List Char) :=
  match wsStar l with
  | ':' :: rest => some rest
  | _ => none

/-- `clean_text` regex `^(?:Do|Don\'t|DON\'T)\s*:\s*.+` (IGNORECASE): the
Do/Don't evidence construct.  The alternatives reduce to the two
case-insensitive stems `don't` and `do`. -/
def matchDoDontCT (l : List Char) : Bool :=
  (match ciPre ['d', 'o', 'n', '\'', 't'] l with
   | some r => (colonAfterWs r).elim false hasDotPlus
   | none => false) ||
  (match ciPre ['d', 'o'] l with
   | some r => (colonAfterWs r).elim false hasDotPlus
   | none => false)

def matchDoDontCTStr (s : String) : Bool := matchDoDontCT s.data

/-- `extract_pdf`/`fit_scoring` regex `^(?:Do|Don\'t|DON\'T|Dont)\s*:\s*`
(IGNORECASE): like `matchDoDontCT` but admits the stem `dont` and requires
no text after the colon. -/
def matchDoDontLoose (l : List Char) : Bool :=
  (match ciPre ['d', 'o', 'n', '\'', 't'] l with
   | some r => (colonAfterWs r).isSome
   | none => false) ||
  (match ciPre ['d', 'o', 'n', 't'] l with
   | some r => (colonAfterWs r).isSome
   | none => false) ||
  (match ciPre ['d', 'o'] l with
   | some r => (colonAfterWs r).isSome
   | none => false)

/-- Core `Based\s+on\s+[\w\s]+\'s\s+responses` at the head of `l`:
`some rest` on success.  `[\w\s]+` is matched maximally — its follow
character `'` is neither a word character nor whitespace. -/
def basedOnCore (l : List Char) : Option (List Char) := do
  let r ← ciPre ['b', 'a', 's', 'e', 'd'] l
  let r ← wsPlus r
  let r ← ciPre ['o', 'n'] r
  let r ← wsPlus r
  let chunk := r.takeWhile (fun c => isWordCh c || pyIsSpace c)
  if chunk.isEmpty then none else
  let r := r.drop chunk.length
  let r ← litPre ['\'', 's'] r
  let r ← wsPlus r
  ciPre ['r', 'e', 's', 'p', 'o', 'n', 's', 'e', 's'] r

/-- Trailing `[.,]?\s*` of the lead-in patterns (greedy). -/
def optPunctWs (l : List Char) : List Char :=
  match l with
  | '.' :: rest => wsStar rest
  | ',' :: rest => wsStar rest
  | _ => wsStar l

/-- `clean_text.SECTION_LEAD_IN`:
`^(?:Behavioral\s+Characteristics\s+)?Based\s+on\s+[\w\s]+\'s\s+responses[.,]?\s*`
(IGNORECASE), anchored at the start; `some rest` strips the match. -/
def sectionLeadInMatch (l : List Char) : Option (List Char) :=
  let withB : Option (List Char) := do
    let r ← ciPre ['b', 'e', 'h', 'a', 'v', 'i', 'o', 'r', 'a', 'l'] l
    let r ← wsPlus r
    let r ← ciPre ['c', 'h', 'a', 'r', 'a', 'c', 't', 'e', 'r', 'i', 's', 't', 'i', 'c', 's'] r
    let r ← wsPlus r
    basedOnCore r
  match withB with
  | some rest => some (optPunctWs rest)
  | none =>
    match basedOnCore l with
    | some rest => some (optPunctWs rest)
    | none => none

/-- `clean_text.BASED_ON_RESPONSES.search`: the core pattern anywhere. -/
def searchBasedOn : List Char → Bool
  | [] => false
  | c :: cs => (basedOnCore (c :: cs)).isSome || searchBasedOn cs

/-- `clean_text.MASK_SOME_OF.search`: `mask\s+some\s+of` (IGNORECASE)
anywhere. -/
def maskSomeOfAt (l : List Char) : Bool :=
  (do
    let r ← ciPre ['m', 'a', 's', 'k'] l
    let r ← wsPlus r
    let r ← ciPre ['s', 'o', 'm', 'e'] r
    let r ← wsPlus r
    ciPre ['o', 'f'] r).isSome

def searchMaskSomeOf : List Char → Bool
  | [] => false
  | c :: cs => maskSomeOfAt (c :: cs) || searchMaskSomeOf cs

end SandiBot

namespace SandiBot.CleanText

open SandiBot

/-! ## `src/kg/clean_text.py` -/

/-- `clean_text.MIN_READABLE_LEN`. -/
def MIN_READABLE_LEN : Nat := 25

/-- `clean_text.MIN_COMPLETE_SENTENCE_FOR_MASK`. -/
def MIN_COMPLETE_SENTENCE_FOR_MASK : Nat := 80

/-- `clean_text.MAX_SNIPPET_LEN`. -/
def MAX_SNIPPET_LEN : Nat := 200

/-- `clean_text.normalize_whitespace`: `re.sub(r"\s+", " ", s).strip()`. -/
def normalize_whitespace (s : String) : String :=
  ⟨pyStripL (collapseWs s.data)⟩

/-- `clean_text.strip_section_lead_in`. -/
def strip_section_lead_in (s : String) : String :=
  if s = "" then "" else
  let t := (normalize_whitespace s).data
  match sectionLeadInMatch t with
  | some rest => ⟨pyStripL rest⟩
  | none => ⟨pyStripL t⟩

/-- Last character is `.`, `!` or `?`. -/
def endsTerminal (l : List Char) : Bool :=
  match l.getLast? with
  | some c => c = '.' || c = '!' || c = '?'
  | none => false

/-- `clean_text.ensure_ending`.  When `s` is three or more characters of pure
whitespace CPython raises `IndexError` at `s[-1]`; the embedding returns the
stripped string there — every caller passes whitespace-normalized input, for
which that branch is unreachable. -/
def ensure_ending (s : String) : String :=
  if s = "" || s.length < 3 then s else
  let t := pyStripL s.data
  if matchDoDontCT t then ⟨t⟩
  else if t.isEmpty then ⟨t⟩
  else if endsTerminal t then ⟨t⟩
  else if MAX_SNIPPET_LEN ≤ t.length || endsWithL ['.', '.', '.'] t then ⟨t⟩
  else ⟨t ++ ['.']⟩

/-- `clean_text.clean_evidence_snippet`. -/
def clean_evidence_snippet (s : String) (maxLen : Nat := MAX_SNIPPET_LEN) : String :=
  if s = "" then "" else
  let t := (normalize_whitespace (strip_section_lead_in s)).data
  let t :=
    if maxLen < t.length then
      if 3 < maxLen then dropLastSpaceWord (t.take (maxLen - 3)) ++ ['.', '.', '.']
      else t.take maxLen
    else t
  ensure_ending ⟨t⟩

/-- `clean_text.is_acceptable_evidence`. -/
def is_acceptable_evidence (snippet : String) : Bool :=
  if snippet = "" then false else
  let s := pyStripL (normalize_whitespace snippet).data
  if s.isEmpty then false else
  let isDoDont := matchDoDontCT s
  if s.length < MIN_READABLE_LEN && ¬ isDoDont then false
  else if (s.headI).isLower then false
  else if searchBasedOn s then false
  else if searchMaskSomeOf s && s.length < MIN_COMPLETE_SENTENCE_FOR_MASK then false
  else true

/-- `clean_text.prepare_evidence_for_display`. -/
def prepare_evidence_for_display (snippet : String) (maxLen : Nat := MAX_SNIPPET_LEN) :
    Option String :=
  let cleaned := clean_evidence_snippet snippet maxLen
  if is_acceptable_evidence cleaned then some cleaned else none

end SandiBot.CleanText

namespace SandiBot.ExtractPdf

open SandiBot SandiBot.CleanText

/-! ## `src/kg/extract_pdf.py`

The PDF byte level (`fitz` / `pdfplumber`) is external; the embedding takes
the per-page text each backend would return as input (`List Page`), exactly
the data `extract_facts` consumes after its backend calls. -/

/-- One extracted page: 1-based page number and its plain text. -/
structure Page where
  page : Nat
  text : String
  deriving DecidableEq, Repr

/-- `extract_pdf.MIN_CHARS_OK`. -/
def MIN_CHARS_OK : Nat := 1500

/-- `extract_pdf.MAX_FACTS`. -/
def MAX_FACTS : Nat := 60

/-- `extract_pdf.SECTION_HEADINGS`. -/
def SECTION_HEADINGS : List String :=
  ["behavioral", "driving forces", "communication", "strengths",
   "areas for improvement", "checklist", "motivators", "preferences",
   "do's and don'ts", "do and don't", "key traits", "risks",
   "tti", "talent insights", "disc", "behavioral traits", "work style",
   "communication style", "motivators and preferences"]

/-- `extract_pdf.BULLET_HEADINGS`. -/
def BULLET_HEADINGS : List String :=
  ["checklist for communicating", "behavioral characteristics",
   "strengths", "areas for improvement", "driving forces"]

/-- One extracted fact (`{"type", "label", "evidence": {"page", "snippet"},
"score"?}`). -/
structure Fact where
  ftype : String
  label : String
  page : Nat
  snippet : String
  score : Option Int := none
  deriving DecidableEq, Repr

/-- `extract_pdf._BOILERPLATE_PHRASES[2]`:
`the\s+report\s+has\s+selected\s+general\s+statements[.,]?\s*` at the head. -/
def reportStatementsMatch (l : List Char) : Option (List Char) := do
  let r ← ciPre ['t', 'h', 'e'] l
  let r ← wsPlus r
  let r ← ciPre ['r', 'e', 'p', 'o', 'r', 't'] r
  let r ← wsPlus r
  let r ← ciPre ['h', 'a', 's'] r
  let r ← wsPlus r
  let r ← ciPre ['s', 'e', 'l', 'e', 'c', 't', 'e', 'd'] r
  let r ← wsPlus r
  let r ← ciPre ['g', 'e', 'n', 'e', 'r', 'a', 'l'] r
  let r ← wsPlus r
  let r ← ciPre ['s', 't', 'a', 't', 'e', 'm', 'e', 'n', 't', 's'] r
  some (optPunctWs r)

/-- `_BOILERPLATE_PHRASES[1]` with its trailing `[.,]?\s*`. -/
def basedOnFullMatch (l : List Char) : Option (List Char) :=
  (basedOnCore l).map optPunctWs

/-- `_BOILERPLATE_PHRASES[0]`: the `Behavioral Characteristics` variant. -/
def behavioralBasedOnMatch (l : List Char) : Option (List Char) := do
  let r ← ciPre ['b', 'e', 'h', 'a', 'v', 'i', 'o', 'r', 'a', 'l'] l
  let r ← wsPlus r
  let r ← ciPre ['c', 'h', 'a', 'r', 'a', 'c', 't', 'e', 'r', 'i', 's', 't', 'i', 'c', 's'] r
  let r ← wsPlus r
  basedOnFullMatch r

/-- `re.sub(pat, "", out)` for one of the boilerplate patterns: every
non-overlapping match, scanning left to right, is removed.  `matchAt`
returns the suffix after a match at the head; each match consumes at least
one character, so the input length is enough fuel. -/
def subAllGo (matchAt : List Char → Option (List Char)) :
    Nat → List Char → List Char
  | 0, l => l
  | _ + 1, [] => []
  | fuel + 1, c :: cs =>
    match matchAt (c :: cs) with
    | some rest =>
      if rest.length < (c :: cs).length then subAllGo matchAt fuel rest
      else c :: subAllGo matchAt fuel cs
    | none => c :: subAllGo matchAt fuel cs

def subAll (matchAt : List Char → Option (List Char)) (l : List Char) : List Char :=
  subAllGo matchAt l.length l

/-- `extract_pdf._clean_line`: normalize whitespace, then strip each
boilerplate pattern globally, stripping after each substitution. -/
def cleanLine (s : String) : String :=
  if s = "" then "" else
  let out := pyStripL (collapseWs s.data)
  let out := pyStripL (subAll behavioralBasedOnMatch out)
  let out := pyStripL (subAll basedOnFullMatch out)
  let out := pyStripL (subAll reportStatementsMatch out)
  ⟨out⟩

/-- `extract_pdf._is_bad_fragment`. -/
def isBadFragment (s : String) : Bool :=
  if s = "" then true else
  let t := pyStripL s.data
  if t.length < 8 then true
  else if ¬ t.any pyIsAlpha then true
  else
    let isDoDont := matchDoDontLoose t
    if (t.headI).isLower && ¬ isDoDont then true
    else if containsSub "based on".data (t.map pyToLower) && t.length < 120 then true
    else if (containsSub "mask some of".data (t.map pyToLower)
             || containsSub "working as".data (t.map pyToLower))
            && (t.length < 80 || ¬ endsTerminal t) then true
    else false

/-- `extract_pdf._count_headings`. -/
def countHeadings (fullText : String) : Nat :=
  let lower := (fullText.data.map pyToLower)
  (SECTION_HEADINGS.filter (fun h => containsSub h.data lower)).length

/-- Regex `^[-*•]\s+` (`_is_bullet_line`, first half). -/
def bulletPre (l : List Char) : Option (List Char) :=
  match l with
  | c :: rest =>
    if c = '-' || c = '*' || c = '•' then wsPlus rest else none
  | [] => none

/-- Regex `^\d+[.)]\s+` (`_is_bullet_line`, second half). -/
def numberedPre (l : List Char) : Option (List Char) :=
  let digits := l.takeWhile pyIsDigit
  if digits.isEmpty then none else
  match l.drop digits.length with
  | c :: rest => if c = '.' || c = ')' then wsPlus rest else none
  | [] => none

/-- `extract_pdf._is_bullet_line` (applied to the stripped line). -/
def isBulletLine (l : List Char) : Bool :=
  let s := pyStripL l
  (bulletPre s).isSome || (numberedPre s).isSome

/-- `re.sub(r"^[-*•]\s+", "", re.sub(r"^\d+[.)]\s+", "", line))`: strip a
numbered prefix, then a bullet prefix (each anchored, so at most one
substitution fires). -/
def stripBulletMarks (l : List Char) : List Char :=
  let l := match numberedPre l with
    | some rest => rest
    | none => l
  match bulletPre l with
  | some rest => rest
  | none => l

/-- `extract_pdf._extract_bullets` body for one line; `some content` when the
line is kept as a candidate bullet. -/
def bulletCandidate (maxLen : Nat) (line : List Char) : Option (List Char) :=
  let s := pyStripL line
  if s.isEmpty || s.length < 4 then none
  else if (bulletPre s).isSome || (numberedPre s).isSome then
    let content := stripBulletMarks s
    if 4 ≤ content.length && content.length ≤ maxLen then some content else none
  else none

/-- `extract_pdf._extract_bullets` (deduplicating, capped at 30). -/
def extractBullets (text : String) (maxLen : Nat := 120) : List String :=
  let step := fun (acc : List String) (line : List Char) =>
    match bulletCandidate maxLen line with
    | some content =>
      let c : String := ⟨content⟩
      if c ∈ acc then acc else acc ++ [c]
    | none => acc
  (((splitlinesL text.data).foldl step []).take 30)

/-- `m_do` of `_extract_do_dont_lines`: `^(?:Do\'?s?|Do)\s*:\s*(.+)` with the
captured group.  The optional `'` and `s` are taken greedily; taking them can
never lose a match because the following literal is `:`. -/
def doLineCapture (l : List Char) : Option (List Char) := do
  let r ← ciPre ['d', 'o'] l
  let r := match litPre ['\''] r with
    | some r2 => r2
    | none => r
  let r := match ciPre ['s'] r with
    | some r2 => r2
    | none => r
  let r ← colonAfterWs r
  let body := wsStar r
  if body.isEmpty then (if r.isEmpty then none else some r) else some body

/-- `m_dont` of `_extract_do_dont_lines`:
`^(?:Don\'t|DON\'T|Dont|Do\s+not)\s*:\s*(.+)` with the captured group. -/
def dontLineCapture (l : List Char) : Option (List Char) :=
  let stem : Option (List Char) :=
    match ciPre ['d', 'o', 'n', '\'', 't'] l with
    | some r => some r
    | none =>
      match ciPre ['d', 'o', 'n', 't'] l with
      | some r => some r
      | none => do
        let r ← ciPre ['d', 'o'] l
        let r ← wsPlus r
        ciPre ['n', 'o', 't'] r
  match stem with
  | some r => do
    let r ← colonAfterWs r
    let body := wsStar r
    if body.isEmpty then (if r.isEmpty then none else some r) else some body
  | none => none

/-- `extract_pdf._extract_do_dont_lines`. -/
def extractDoDontLines (text : String) : List (String × String) :=
  let step := fun (acc : List (String × String)) (line : List Char) =>
    let raw := pyStripL line
    if raw.isEmpty || raw.length < 8 then acc else
    match dontLineCapture raw with
    | some grp =>
      let content := cleanLine ⟨pyStripL grp⟩
      if content = "" || isBadFragment content then acc
      else
        let label := "Don't: " ++ content
        if 8 ≤ label.length && label.length ≤ 140 then acc ++ [("trait_dont", label)]
        else acc
    | none =>
      match doLineCapture raw with
      | some grp =>
        let content := cleanLine ⟨pyStripL grp⟩
        if content = "" || isBadFragment content then acc
        else
          let label := "Do: " ++ content
          if 8 ≤ label.length && label.length ≤ 140 then acc ++ [("trait_do", label)]
          else acc
      | none => acc
  (splitlinesL text.data).foldl step []

/-- `extract_pdf._is_heading_line`. -/
def isHeadingLine (lower : List Char) : Bool :=
  BULLET_HEADINGS.any (fun h => containsSub h.data lower)

/-- `extract_pdf._extract_bullets_under_headings` (capped at 25). -/
def extractBulletsUnderHeadings (text : String) (maxLen : Nat := 150) :
    List (String × Bool) :=
  let step := fun (st : Bool × Bool × List (String × Bool)) (line : List Char) =>
    let (inSection, lastComm, out) := st
    let stripped := pyStripL line
    let lower := stripped.map pyToLower
    if isHeadingLine lower then
      (true,
       containsSub "communicat".data lower || containsSub "checklist".data lower,
       out)
    else if inSection && isBulletLine line then
      let content := stripBulletMarks stripped
      if 15 ≤ content.length && content.length ≤ maxLen then
        (inSection, lastComm, out ++ [(⟨content⟩, lastComm)])
      else (inSection, lastComm, out)
    else if inSection && ¬ stripped.isEmpty && ¬ isBulletLine line then
      (false, lastComm, out)
    else (inSection, lastComm, out)
  (((splitlinesL text.data).foldl step (false, false, [])).2.2).take 25

/-- `extract_pdf._evidence_entry`: the cleaned line alone becomes the
snippet; `none` when the Evidence Cleaner rejects it. -/
def evidenceEntry (page : Nat) (cleanedLine : String) : Option (Nat × String) :=
  if cleanedLine = "" || isBadFragment cleanedLine then none else
  match prepare_evidence_for_display cleanedLine 200 with
  | some cleaned => some (page, cleaned)
  | none =>
    let cleaned := cleanLine cleanedLine
    if isBadFragment cleaned || ¬ is_acceptable_evidence cleaned then none
    else some (page, cleaned)

end SandiBot.ExtractPdf

namespace SandiBot.ExtractPdf

open SandiBot SandiBot.CleanText

/-- Generic `re.finditer`: scan left to right, emit each match and resume
after it (every match of the patterns below consumes at least one
character).  `matchAt` returns the match value and its consumed length. -/
def finditerGo {α : Type} (matchAt : List Char → Option (α × Nat)) :
    Nat → List Char → List α
  | 0, _ => []
  | _ + 1, [] => []
  | fuel + 1, c :: cs =>
    match matchAt (c :: cs) with
    | some (a, k) =>
      if 0 < k then a :: finditerGo matchAt fuel (List.drop k (c :: cs))
      else finditerGo matchAt fuel cs
    | none => finditerGo matchAt fuel cs

def finditer {α : Type} (matchAt : List Char → Option (α × Nat)) (l : List Char) :
    List α :=
  finditerGo matchAt l.length l

/-- A driver-score match: the full matched span (`group(0)`), the name
(`group(1)`) and the digits (`group(2)`). -/
structure DriverMatch where
  g0 : List Char
  name : List Char
  digits : List Char
  deriving Repr

/-- `\s*\(\s*(\d{2,3})\s*\)` after the name part: returns digits and the
rest.  `\d{2,3}` can only match the whole maximal digit run — with a longer
run the follow `\s*\)` would face a digit either way. -/
def parenScoreTail (l : List Char) : Option (List Char × List Char) :=
  match wsStar l with
  | '(' :: r2 =>
    let r3 := wsStar r2
    let ds := r3.takeWhile pyIsDigit
    if ds.length = 2 || ds.length = 3 then
      match wsStar (r3.drop ds.length) with
      | ')' :: r5 => some (ds, r5)
      | _ => none
    else none
  | _ => none

/-- `_driver_paren` = `(\w+(?:\s+\w+)?)\s*\(\s*(\d{2,3})\s*\)` at the head.
The optional `\s+\w+` is tried first (greedy); both `\w+` runs are maximal
because shortening one would put a word character where `\s` or `(` must
follow. -/
def driverParenAt (l : List Char) : Option (DriverMatch × Nat) :=
  let w1 := l.takeWhile isWordCh
  if w1.isEmpty then none else
  let rest1 := l.drop w1.length
  let branchA : Option (DriverMatch × Nat) :=
    let sp := rest1.takeWhile pyIsSpace
    if sp.isEmpty then none else
    let w2 := (rest1.drop sp.length).takeWhile isWordCh
    if w2.isEmpty then none else
    match parenScoreTail (rest1.drop (sp.length + w2.length)) with
    | some (ds, rest) =>
      let name := w1 ++ sp ++ w2
      let k := l.length - rest.length
      some (⟨l.take k, name, ds⟩, k)
    | none => none
  match branchA with
  | some m => some m
  | none =>
    match parenScoreTail rest1 with
    | some (ds, rest) =>
      let k := l.length - rest.length
      some (⟨l.take k, w1, ds⟩, k)
    | none => none

/-- `\s+(\d{2,3})\b` after the name part. -/
def spaceScoreTail (l : List Char) : Option (List Char × List Char) :=
  let sp := l.takeWhile pyIsSpace
  if sp.isEmpty then none else
  let r := l.drop sp.length
  let ds := r.takeWhile pyIsDigit
  if (ds.length = 2 || ds.length = 3)
      && (match r.drop ds.length with
          | [] => true
          | c :: _ => ¬ isWordCh c) then
    some (ds, r.drop ds.length)
  else none

/-- `_driver_space` = `(\w+(?:\s+\w+)?)\s+(\d{2,3})\b` at the head. -/
def driverSpaceAt (l : List Char) : Option (DriverMatch × Nat) :=
  let w1 := l.takeWhile isWordCh
  if w1.isEmpty then none else
  let rest1 := l.drop w1.length
  let branchA : Option (DriverMatch × Nat) :=
    let sp := rest1.takeWhile pyIsSpace
    if sp.isEmpty then none else
    let w2 := (rest1.drop sp.length).takeWhile isWordCh
    if w2.isEmpty then none else
    match spaceScoreTail (rest1.drop (sp.length + w2.length)) with
    | some (ds, rest) =>
      let name := w1 ++ sp ++ w2
      let k := l.length - rest.length
      some (⟨l.take k, name, ds⟩, k)
    | none => none
  match branchA with
  | some m => some m
  | none =>
    match spaceScoreTail rest1 with
    | some (ds, rest) =>
      let k := l.length - rest.length
      some (⟨l.take k, w1, ds⟩, k)
    | none => none

/-- `\s+([^.\n]+)` with the backtracking corner: when only whitespace
follows, the last whitespace character itself feeds the capture. -/
def wsPlusCap (l : List Char) : Option (List Char × Nat) :=
  let sp := l.takeWhile pyIsSpace
  if sp.isEmpty then none else
  let r := l.drop sp.length
  let run := r.takeWhile (fun c => ¬ (c = '.' || c = '\n'))
  if ¬ run.isEmpty then some (run, sp.length + run.length)
  else if 2 ≤ sp.length then some ([sp.getLastD ' '], sp.length)
  else none

/-- `\s*:\s*([^.\n]+)` (the `risk[s]?\s*:` tail). -/
def colonCap (l : List Char) : Option (List Char × Nat) :=
  let sp1 := l.takeWhile pyIsSpace
  match l.drop sp1.length with
  | ':' :: r2 =>
    let sp2 := r2.takeWhile pyIsSpace
    let r3 := r2.drop sp2.length
    let run := r3.takeWhile (fun c => ¬ (c = '.' || c = '\n'))
    if ¬ run.isEmpty then some (run, sp1.length + 1 + sp2.length + run.length)
    else if 1 ≤ sp2.length then some ([sp2.getLastD ' '], sp1.length + 1 + sp2.length)
    else none
  | _ => none

/-- A literal (case-insensitive) stem followed by `\s+([^.\n]+)`. -/
def litCapAt (stem : List Char) (l : List Char) : Option (List Char × Nat) := do
  let r ← ciPre stem l
  let (grp, k) ← wsPlusCap r
  some (grp, stem.length + k)

/-- `avoid[s]?\s+([^.\n]+)`: the optional `s` is taken when present (the
follow `\s` cannot be an `s`). -/
def avoidCapAt (l : List Char) : Option (List Char × Nat) := do
  let r ← ciPre ['a', 'v', 'o', 'i', 'd'] l
  match ciPre ['s'] r with
  | some r2 =>
    match wsPlusCap r2 with
    | some (grp, k) => some (grp, 6 + k)
    | none => none
  | none =>
    match wsPlusCap r with
    | some (grp, k) => some (grp, 5 + k)
    | none => none

/-- `risk[s]?\s*:\s*([^.\n]+)`. -/
def riskColonCapAt (l : List Char) : Option (List Char × Nat) := do
  let r ← ciPre ['r', 'i', 's', 'k'] l
  match ciPre ['s'] r with
  | some r2 =>
    match colonCap r2 with
    | some (grp, k) => some (grp, 5 + k)
    | none => none
  | none =>
    match colonCap r with
    | some (grp, k) => some (grp, 4 + k)
    | none => none

/-- `watch (?:out|for)\s+([^.\n]+)` (a literal space after `watch`). -/
def watchCapAt (l : List Char) : Option (List Char × Nat) := do
  let r ← ciPre ['w', 'a', 't', 'c', 'h', ' '] l
  let alt : Option (List Char) :=
    match ciPre ['o', 'u', 't'] r with
    | some r2 => some r2
    | none => ciPre ['f', 'o', 'r'] r
  match alt with
  | some r2 =>
    match wsPlusCap r2 with
    | some (grp, k) => some (grp, 9 + k)
    | none => none
  | none => none

/-- `extract_pdf.TRAIT_PATTERNS` as matchers. -/
def TRAIT_PATTERNS : List (List Char → Option (List Char × Nat)) :=
  [litCapAt ['t', 'e', 'n', 'd', 's', ' ', 't', 'o'],
   litCapAt ['p', 'r', 'e', 'f', 'e', 'r', 's'],
   litCapAt ['l', 'i', 'k', 'e', 's', ' ', 't', 'o']]

/-- `extract_pdf.DRIVER_PATTERNS` as matchers. -/
def DRIVER_PATTERNS : List (List Char → Option (List Char × Nat)) :=
  [litCapAt ['m', 'o', 't', 'i', 'v', 'a', 't', 'e', 'd', ' ', 'b', 'y'],
   litCapAt ['d', 'r', 'i', 'v', 'e', 'n', ' ', 'b', 'y'],
   litCapAt ['v', 'a', 'l', 'u', 'e', 's'],
   litCapAt ['n', 'e', 'e', 'd', 's']]

/-- `extract_pdf.RISK_PATTERNS` as matchers (the list repeats `avoids`). -/
def RISK_PATTERNS : List (List Char → Option (List Char × Nat)) :=
  [avoidCapAt,
   litCapAt ['a', 'v', 'o', 'i', 'd', 's'],
   riskColonCapAt,
   watchCapAt,
   litCapAt ['t', 'e', 'n', 'd', 'e', 'n', 'c', 'y', ' ', 't', 'o']]

/-- `extract_pdf._find_phrase_matches`. -/
def findPhraseMatches (text : String)
    (patterns : List (List Char → Option (List Char × Nat))) : List String :=
  patterns.foldl
    (fun found pat =>
      (finditer pat text.data).foldl
        (fun found grp =>
          let phrase : String := ⟨pyStripL grp⟩
          if 3 < phrase.length && phrase.length < 150 && ¬ (phrase ∈ found) then
            found ++ [phrase]
          else found)
        found)
    []

/-- Regex `^(?:Do|Don\'t)\s*:` (IGNORECASE) of the communication-bullet
stage. -/
def matchDoDontColon (l : List Char) : Bool :=
  (match ciPre ['d', 'o', 'n', '\'', 't'] l with
   | some r => (colonAfterWs r).isSome
   | none => false) ||
  (match ciPre ['d', 'o'] l with
   | some r => (colonAfterWs r).isSome
   | none => false)

/-- Running state of `_extract_facts_from_pages`. -/
structure ExtractState where
  facts : List Fact
  seen : List String
  bulletsFound : Nat
  doCnt : Nat
  dontCnt : Nat
  deriving Repr

/-- Stage (a): Do/Don't lines. -/
def stageDoDont (pages : List Page) (st : ExtractState) : ExtractState :=
  pages.foldl
    (fun st p =>
      if (pyStrip p.text) = "" then st else
      (extractDoDontLines p.text).foldl
        (fun st item =>
          let (ftype, label) := item
          let st :=
            if ftype = "trait_do" then { st with doCnt := st.doCnt + 1 }
            else { st with dontCnt := st.dontCnt + 1 }
          match evidenceEntry p.page label with
          | some (pg, sn) =>
            if label ∈ st.seen then st
            else { st with
                   seen := st.seen ++ [label],
                   facts := st.facts ++ [⟨ftype, label, pg, sn, none⟩] }
          | none => st)
        st)
    st

/-- Stage (b): bullets under known headings. -/
def stageHeadedBullets (pages : List Page) (st : ExtractState) : ExtractState :=
  pages.foldl
    (fun st p =>
      if MAX_FACTS ≤ st.facts.length then st else
      if (pyStrip p.text) = "" then st else
      (extractBulletsUnderHeadings p.text).foldl
        (fun st item =>
          let (content, isComm) := item
          let st := { st with bulletsFound := st.bulletsFound + 1 }
          let label := cleanLine content
          if isBadFragment label || label.length < 15 then st else
          match evidenceEntry p.page label with
          | none => st
          | some (pg, sn) =>
            if label ∈ st.seen then st else
            let lower := pyLower label
            let ftype :=
              if strContains lower "avoid" || strContains lower "don't"
                 || strContains lower "do not" then "communication_dont"
              else "communication_do"
            let ftype :=
              if isComm then ftype
              else if strContains lower "don't" || strContains lower "avoid" then
                "risks_dont"
              else "strengths_do"
            { st with
              seen := st.seen ++ [label],
              facts := st.facts ++ [⟨ftype, label, pg, sn, none⟩] })
        st)
    st

/-- Digits to an integer (`int(score_str)`; the digits are 2–3 chars). -/
def digitsToInt (ds : List Char) : Int :=
  Int.ofNat (ds.foldl (fun acc c => 10 * acc + (c.toNat - '0'.toNat)) 0)

/-- Stage (c) body for one driver match. -/
def driverStep (page : Nat) (st : ExtractState) (m : DriverMatch) : ExtractState :=
  let driverName : String := ⟨pyStripL m.name⟩
  if driverName = "" || driverName.length < 2 || 40 < driverName.length then st else
  let fullLine := cleanLine ⟨m.g0⟩
  if isBadFragment fullLine then st else
  match evidenceEntry page fullLine with
  | none => st
  | some (pg, sn) =>
    let key := "driver:" ++ pyLower driverName
    if key ∈ st.seen then st
    else
      { st with
        seen := st.seen ++ [key],
        facts := st.facts ++
          [⟨"driver", driverName, pg, sn, some (digitsToInt m.digits)⟩] }

/-- Stage (c): driving-force score lines. -/
def stageDriverScores (pages : List Page) (st : ExtractState) : ExtractState :=
  pages.foldl
    (fun st p =>
      if MAX_FACTS ≤ st.facts.length then st else
      let st := (finditer driverParenAt p.text.data).foldl (driverStep p.page) st
      (finditer driverSpaceAt p.text.data).foldl (driverStep p.page) st)
    st

/-- Stage (d) body for one phrase of a given fact type. -/
def phraseStep (ftype : String) (page : Nat) (st : ExtractState) (phrase : String) :
    ExtractState :=
  let label := cleanLine phrase
  if isBadFragment label then st else
  match evidenceEntry page label with
  | none => st
  | some (pg, sn) =>
    if label ∈ st.seen then st
    else { st with
           seen := st.seen ++ [label],
           facts := st.facts ++ [⟨ftype, label, pg, sn, none⟩] }

/-- Stage (d): generic regex phrases. -/
def stagePhrases (pages : List Page) (st : ExtractState) : ExtractState :=
  pages.foldl
    (fun st p =>
      if MAX_FACTS ≤ st.facts.length then st else
      let st := (findPhraseMatches p.text TRAIT_PATTERNS).foldl
        (phraseStep "trait" p.page) st
      let st := (findPhraseMatches p.text DRIVER_PATTERNS).foldl
        (phraseStep "driver" p.page) st
      (findPhraseMatches p.text RISK_PATTERNS).foldl
        (phraseStep "risk" p.page) st)
    st

/-- The communication/checklist bullet stage. -/
def stageCommBullets (pages : List Page) (st : ExtractState) : ExtractState :=
  pages.foldl
    (fun st p =>
      if MAX_FACTS ≤ st.facts.length then st else
      let lower := pyLower p.text
      if ¬ (strContains lower "communication" || strContains lower "checklist") then
        st
      else
        (extractBullets p.text).foldl
          (fun st bullet =>
            let st := { st with bulletsFound := st.bulletsFound + 1 }
            let label := cleanLine bullet
            if isBadFragment label then st else
            if label.length < 25 && ¬ matchDoDontColon label.data then st else
            match evidenceEntry p.page label with
            | none => st
            | some (pg, sn) =>
              if label ∈ st.seen then st else
              let llower := pyLower label
              let ftype :=
                if strContains llower "avoid" || strContains llower "don't"
                   || strContains llower "do not" then "communication_dont"
                else "communication_do"
              { st with
                seen := st.seen ++ [label],
                facts := st.facts ++ [⟨ftype, label, pg, sn, none⟩] })
          st)
    st

/-- The final fallback stage: first ten bullets of the first five pages. -/
def stageFallbackBullets (pages : List Page) (st : ExtractState) : ExtractState :=
  if ¬ st.facts.isEmpty || pages.isEmpty then st else
  (pages.take 5).foldl
    (fun st p =>
      ((extractBullets p.text).take 10).foldl
        (fun st bullet =>
          let label := cleanLine bullet
          if label.length < 25 || isBadFragment label then st else
          let st := { st with bulletsFound := st.bulletsFound + 1 }
          match evidenceEntry p.page label with
          | some (pg, sn) =>
            if label ∈ st.seen then st
            else { st with
                   seen := st.seen ++ [label],
                   facts := st.facts ++ [⟨"trait", label, pg, sn, none⟩] }
          | none => st)
        st)
    st

/-- `extract_pdf._extract_facts_from_pages`: facts (capped at 60),
headings found, bullets found, Do-line count, Don't-line count. -/
def extractFactsFromPages (pages : List Page) :
    List Fact × Nat × Nat × Nat × Nat :=
  let fullText := pyJoin "\n\n" (pages.map Page.text)
  let headings := countHeadings fullText
  let st : ExtractState := ⟨[], [], 0, 0, 0⟩
  let st := stageDoDont pages st
  let st := stageHeadedBullets pages st
  let st := stageDriverScores pages st
  let st := stagePhrases pages st
  let st := stageCommBullets pages st
  let st := stageFallbackBullets pages st
  (st.facts.take MAX_FACTS, headings, st.bulletsFound, st.doCnt, st.dontCnt)

/-- The dictionary `extract_facts` returns. -/
structure ExtractResult where
  client_name : String
  doc_id : String
  facts : List Fact
  total_chars_extracted : Nat
  pages_with_text_count : Nat
  extraction_status : String
  headings_found : Nat
  bullets_found : Nat
  do_lines_found_count : Nat
  dont_lines_found_count : Nat
  facts_count_by_type : List (String × Nat)
  extraction_message : Option String
  deriving DecidableEq, Repr

/-- Increment a count in an insertion-ordered association list. -/
def bumpCount (key : String) : List (String × Nat) → List (String × Nat)
  | [] => [(key, 1)]
  | (k, n) :: rest =>
    if k = key then (k, n + 1) :: rest else (k, n) :: bumpCount key rest

/-- `facts_count_by_type`. -/
def factsCountByType (facts : List Fact) : List (String × Nat) :=
  facts.foldl (fun acc f => bumpCount f.ftype acc) []

def totalChars (pages : List Page) : Nat :=
  (pages.map (fun p => p.text.length)).sum

def pagesWithText (pages : List Page) : Nat :=
  (pages.filter (fun p => ¬ (pyStrip p.text) = "")).length

/-- `extract_pdf.extract_facts`.  The two backend page lists stand for what
`_extract_text_by_page_pymupdf` / `_extract_text_by_page_pdfplumber` return
on the uploaded bytes; `hasFitz`/`hasPdfplumber` mirror the import guards. -/
def extract_facts (clientName docId : String) (hasFitz hasPdfplumber : Bool)
    (pagesPymupdf pagesPdfplumber : List Page) : ExtractResult :=
  if ¬ hasFitz && ¬ hasPdfplumber then
    { client_name := clientName, doc_id := docId, facts := [],
      total_chars_extracted := 0, pages_with_text_count := 0,
      extraction_status := "text_extraction_failed",
      headings_found := 0, bullets_found := 0,
      do_lines_found_count := 0, dont_lines_found_count := 0,
      facts_count_by_type := [],
      extraction_message :=
        some "No PDF library available. Install pymupdf or pdfplumber." }
  else
    let pages := if hasFitz then pagesPymupdf else pagesPdfplumber
    let status := "ok"
    let useFallback :=
      totalChars pages < MIN_CHARS_OK && hasPdfplumber && hasFitz
    let pages := if useFallback then pagesPdfplumber else pages
    let status := if useFallback then "fallback_used" else status
    if totalChars pages < MIN_CHARS_OK then
      { client_name := clientName, doc_id := docId, facts := [],
        total_chars_extracted := totalChars pages,
        pages_with_text_count := pagesWithText pages,
        extraction_status := "text_extraction_failed",
        headings_found := 0, bullets_found := 0,
        do_lines_found_count := 0, dont_lines_found_count := 0,
        facts_count_by_type := [],
        extraction_message :=
          some ("This PDF appears to be scanned images; text extraction returned near-zero. "
                ++ "Please upload a text-based PDF.") }
    else
      let (facts, headings, bullets, doCnt, dontCnt) := extractFactsFromPages pages
      { client_name := clientName, doc_id := docId, facts := facts,
        total_chars_extracted := totalChars pages,
        pages_with_text_count := pagesWithText pages,
        extraction_status := status,
        headings_found := headings, bullets_found := bullets,
        do_lines_found_count := doCnt, dont_lines_found_count := dontCnt,
        facts_count_by_type := factsCountByType facts,
        extraction_message := none }

end SandiBot.ExtractPdf

namespace SandiBot.Storage

open SandiBot

/-! ## `src/kg/storage.py`

The file system is modelled by the pipeline state (`PageUI.St` below): the
facts JSONL as a list of rows, the per-client index as a map from slug to
the set of processed doc ids.  `doc_id_from_bytes` is sha256 of the raw
bytes; the embedding treats the doc id as an opaque string determined by
the bytes (the hash is a pure function, so byte-identical uploads carry the
same id). -/

/-- `storage._client_slug`: keep alphanumerics, space, hyphen, underscore;
map space and hyphen to underscore; cap at 64; empty falls back to
`"unknown"`. -/
def client_slug (name : String) : String :=
  let kept := (pyStripL name.data).filter
    (fun c => pyIsAlnum c || c = ' ' || c = '-' || c = '_')
  let repl := kept.map (fun c => if c = ' ' || c = '-' then '_' else c)
  let cut := repl.take 64
  if cut.isEmpty then "unknown" else ⟨cut⟩

/-- One line of `facts.jsonl` as written by the pipeline. -/
structure FactRow where
  client_slug : String
  client_display_name : String
  client_name : String
  doc_id : String
  ftype : String
  label : String
  page : Nat
  snippet : String
  deriving DecidableEq, Repr

/-- Row matching of `storage.load_facts_for_client`: by display name or by
slug, with the backward-compatibility fallback for rows without a slug. -/
def rowMatches (clientName : String) (docId : Option String) (row : FactRow) :
    Bool :=
  let slug := client_slug clientName
  let objSlug := if row.client_slug = "" then client_slug row.client_name
                 else row.client_slug
  let objName := pyStrip (if row.client_name = "" then row.client_display_name
                          else row.client_name)
  let nameMatch := objName = pyStrip clientName || objSlug = slug
  nameMatch && (match docId with
                | some d => row.doc_id = d
                | none => true)

/-- `storage.load_facts_for_client` over an in-memory facts log. -/
def load_facts_for_client (log : List FactRow) (clientName : String)
    (docId : Option String) : List FactRow :=
  log.filter (rowMatches clientName docId)

/-- The per-client index: slug → processed doc ids. -/
def Index : Type := String → List String

/-- `storage.client_has_doc_id`. -/
def client_has_doc_id (idx : Index) (clientName : String) (docId : String) :
    Bool :=
  docId ∈ idx (client_slug clientName)

/-- `storage.register_processed_doc`: record the doc id under the given slug
(assignment into `processed_docs`, so re-registering is an overwrite). -/
def register_processed_doc (idx : Index) (slug docId : String) : Index :=
  fun s => if s = slug then
    (if docId ∈ idx slug then idx slug else idx slug ++ [docId])
  else idx s

end SandiBot.Storage

namespace SandiBot.Ontology

open SandiBot

/-! ## `src/kg/ontology.py` -/

/-- `ontology._slug` (textually identical to `storage._client_slug`). -/
def slug (name : String) : String :=
  let kept := (pyStripL name.data).filter
    (fun c => pyIsAlnum c || c = ' ' || c = '-' || c = '_')
  let repl := kept.map (fun c => if c = ' ' || c = '-' then '_' else c)
  let cut := repl.take 64
  if cut.isEmpty then "unknown" else ⟨cut⟩

/-- `ontology._norm_label`. -/
def norm_label (label : String) : String :=
  let t := (pyStripL label.data).take 200
  if t.isEmpty then "unknown" else ⟨t⟩

/-- `ontology.client_id`. -/
def client_id (name : String) : String := "client:" ++ slug name

/-- `ontology.trait_id`. -/
def trait_id (label : String) : String := "trait:" ++ norm_label label

/-- `ontology.driver_id`. -/
def driver_id (label : String) : String := "driver:" ++ norm_label label

/-- `ontology.risk_id`. -/
def risk_id (label : String) : String := "risk:" ++ norm_label label

/-- `ontology.document_id`. -/
def document_id (docId : String) : String := "doc:" ++ docId

/-- `ontology.DEFAULT_CONFIDENCE` (8/10 exactly in binary floating point). -/
def DEFAULT_CONFIDENCE : ℚ := 4 / 5

end SandiBot.Ontology

namespace SandiBot.BuildGraph

open SandiBot SandiBot.Ontology SandiBot.ExtractPdf SandiBot.Storage

/-! ## `src/kg/build_graph.py`

A NetworkX `MultiDiGraph` is modelled as two insertion-ordered association
lists: node id → attributes and `(u, v, key)` → attributes.  `add_node` and
`add_edge` with an explicit key follow NetworkX semantics: when the node id
(resp. the `(u, v, key)` triple) already exists, the attributes are
updated in place and no new node/edge is created. -/

structure NodeAttrs where
  node_type : String
  label : String
  deriving DecidableEq, Repr

structure EdgeAttrs where
  relation : String
  doc_id : String
  page : Nat
  snippet : String
  confidence : ℚ
  deriving DecidableEq, Repr

/-- `(u, v, key)`. -/
structure EdgeKey where
  src : String
  dst : String
  key : String
  deriving DecidableEq, Repr

structure Graph where
  nodes : List (String × NodeAttrs)
  edges : List (EdgeKey × EdgeAttrs)
  deriving DecidableEq, Repr

def Graph.empty : Graph := ⟨[], []⟩

def Graph.hasNode (G : Graph) (nid : String) : Bool :=
  G.nodes.any (fun p => p.1 = nid)

/-- NetworkX `G.add_node(nid, **attrs)`: upsert. -/
def Graph.addNode (G : Graph) (nid : String) (attrs : NodeAttrs) : Graph :=
  if G.hasNode nid then
    { G with nodes := G.nodes.map (fun p => if p.1 = nid then (nid, attrs) else p) }
  else { G with nodes := G.nodes ++ [(nid, attrs)] }

def Graph.hasEdge (G : Graph) (k : EdgeKey) : Bool :=
  G.edges.any (fun p => p.1 = k)

/-- NetworkX `G.add_edge(u, v, key=k, **attrs)`: with an existing
`(u, v, key)` the attributes are updated, no parallel edge appears. -/
def Graph.addEdge (G : Graph) (k : EdgeKey) (attrs : EdgeAttrs) : Graph :=
  if G.hasEdge k then
    { G with edges := G.edges.map (fun p => if p.1 = k then (k, attrs) else p) }
  else { G with edges := G.edges ++ [(k, attrs)] }

/-- `G.number_of_nodes()`. -/
def Graph.nodeCount (G : Graph) : Nat := G.nodes.length

/-- `G.number_of_edges()`. -/
def Graph.edgeCount (G : Graph) : Nat := G.edges.length

/-- `build_graph._add_fact_to_graph`. -/
def addFactToGraph (G : Graph) (clientName docId : String) (fact : Fact)
    (confidence : ℚ := DEFAULT_CONFIDENCE) : Graph :=
  let cid := client_id clientName
  let did := document_id docId
  let page := fact.page
  let snippet : String := ⟨fact.snippet.data.take 300⟩
  let G := G.addNode cid ⟨"client", clientName⟩
  let G := G.addNode did ⟨"doc", docId⟩
  let label :=
    let t := (pyStripL fact.label.data).take 200
    if t.isEmpty then "unknown" else (⟨t⟩ : String)
  let G :=
    if fact.ftype = "trait" || fact.ftype = "strengths_do"
       || fact.ftype = "communication_do" || fact.ftype = "trait_do" then
      let nid := trait_id label
      let G := G.addNode nid ⟨"trait", label⟩
      G.addEdge ⟨cid, nid, "has_trait"⟩
        ⟨"has_trait", docId, page, snippet, confidence⟩
    else if fact.ftype = "driver" then
      let nid := driver_id label
      let G := G.addNode nid ⟨"driver", label⟩
      G.addEdge ⟨cid, nid, "has_driver"⟩
        ⟨"has_driver", docId, page, snippet, confidence⟩
    else if fact.ftype = "risk" || fact.ftype = "communication_dont"
            || fact.ftype = "risks_dont" || fact.ftype = "trait_dont" then
      let nid := risk_id label
      let G := G.addNode nid ⟨"risk", label⟩
      G.addEdge ⟨cid, nid, "has_risk"⟩
        ⟨"has_risk", docId, page, snippet, confidence⟩
    else G
  G.addEdge ⟨cid, did, "evidence_from"⟩
    ⟨"evidence_from", docId, page, snippet, confidence⟩

/-- The extraction payload `merge_facts_into_graph` consumes. -/
structure Extraction where
  client_name : String
  doc_id : String
  facts : List Fact
  deriving Repr

/-- `build_graph.merge_facts_into_graph`. -/
def merge_facts_into_graph (G : Graph) (ex : Extraction)
    (confidence : ℚ := DEFAULT_CONFIDENCE) : Graph :=
  let cid := client_id ex.client_name
  let did := document_id ex.doc_id
  let G := G.addNode cid ⟨"client", ex.client_name⟩
  let G := G.addNode did ⟨"doc", ex.doc_id⟩
  ex.facts.foldl
    (fun G fact => addFactToGraph G ex.client_name ex.doc_id fact confidence) G

/-- Group a facts log by `(client name, doc id)` in first-seen order, the
way `rebuild_graph_from_facts` groups JSONL rows (rows with an empty client
name are skipped). -/
def groupRows (log : List FactRow) : List ((String × String) × List FactRow) :=
  log.foldl
    (fun groups row =>
      let clientName := pyStrip (if row.client_display_name = "" then
        row.client_name else row.client_display_name)
      if clientName = "" then groups else
      let key := (clientName, row.doc_id)
      if groups.any (fun g => g.1 = key) then
        groups.map (fun g => if g.1 = key then (g.1, g.2 ++ [row]) else g)
      else groups ++ [(key, [row])])
    []

/-- `build_graph.rebuild_graph_from_facts` over the in-memory log. -/
def rebuild_graph_from_facts (log : List FactRow) : Graph :=
  (groupRows log).foldl
    (fun G g =>
      merge_facts_into_graph G
        ⟨g.1.1, g.1.2,
         g.2.map (fun row => ⟨row.ftype, row.label, row.page, row.snippet, none⟩)⟩)
    Graph.empty

/-- `build_graph.load_graph` over the pipeline state: the persisted graph
when it has nodes, else a rebuild from the facts log when one exists.
Graphs produced by this model are already in the normalized id scheme, on
which `_normalize_node_id` is the identity, so the legacy-relabel pass on
load is dropped. -/
def load_graph (persisted : Graph) (log : List FactRow) : Graph :=
  if persisted.nodeCount = 0 && ¬ log.isEmpty then rebuild_graph_from_facts log
  else persisted

/-- One trait/driver/risk entry of `get_client_traits_drivers_risks`. -/
structure TdrItem where
  label : String
  page : Nat
  snippet : String
  deriving DecidableEq, Repr

/-- `build_graph.get_client_traits_drivers_risks`: walk the edges leaving
the client node and bucket them by relation. -/
def get_client_traits_drivers_risks (G : Graph) (clientName : String) :
    List TdrItem × List TdrItem × List TdrItem :=
  let cid := client_id clientName
  if ¬ G.hasNode cid then ([], [], []) else
  G.edges.foldl
    (fun (acc : List TdrItem × List TdrItem × List TdrItem) e =>
      let (k, data) := e
      if ¬ (k.src = cid) then acc else
      let nodeLabel :=
        match G.nodes.find? (fun p => p.1 = k.dst) with
        | some (_, attrs) => attrs.label
        | none => ""
      let item : TdrItem := ⟨nodeLabel, data.page, data.snippet⟩
      if data.relation = "has_trait" then (acc.1 ++ [item], acc.2.1, acc.2.2)
      else if data.relation = "has_driver" then (acc.1, acc.2.1 ++ [item], acc.2.2)
      else if data.relation = "has_risk" then (acc.1, acc.2.1, acc.2.2 ++ [item])
      else acc)
    ([], [], [])

end SandiBot.BuildGraph

namespace SandiBot.Signals

open SandiBot SandiBot.CleanText

/-! ## `src/kg/signals.py` -/

/-- `signals.PHRASE_TO_SIGNALS` (ordered). -/
def PHRASE_TO_SIGNALS : List (String × String) :=
  [("people", "People-oriented"),
   ("team", "People-oriented"),
   ("relationship", "People-oriented"),
   ("communicat", "People-oriented"),
   ("collaborat", "People-oriented"),
   ("connect", "People-oriented"),
   ("helping others", "People-oriented"),
   ("recognition", "People-oriented"),
   ("impact", "People-oriented"),
   ("big picture", "Big-picture thinker"),
   ("vision", "Big-picture thinker"),
   ("strategic", "Big-picture thinker"),
   ("concept", "Big-picture thinker"),
   ("overview", "Big-picture thinker"),
   ("autonomy", "Autonomy-seeking"),
   ("independence", "Autonomy-seeking"),
   ("self-directed", "Autonomy-seeking"),
   ("control", "Autonomy-seeking"),
   ("own pace", "Autonomy-seeking"),
   ("freedom", "Autonomy-seeking"),
   ("persuad", "Persuasive / influence"),
   ("influence", "Persuasive / influence"),
   ("convinc", "Persuasive / influence"),
   ("lead", "Persuasive / influence"),
   ("negotiat", "Persuasive / influence"),
   ("competit", "Competitive / challenge-driven"),
   ("challenge", "Competitive / challenge-driven"),
   ("win", "Competitive / challenge-driven"),
   ("achievement", "Competitive / challenge-driven"),
   ("goal-oriented", "Competitive / challenge-driven"),
   ("rigid", "Low tolerance for rigid rules"),
   ("rules", "Low tolerance for rigid rules"),
   ("bureaucrac", "Low tolerance for rigid rules"),
   ("flexibility", "Low tolerance for rigid rules"),
   ("flexible", "Low tolerance for rigid rules"),
   ("structure", "Low tolerance for rigid rules"),
   ("risk", "Prefers risk-taking environments"),
   ("entrepreneur", "Prefers risk-taking environments"),
   ("innov", "Prefers risk-taking environments"),
   ("variety", "Prefers risk-taking environments"),
   ("change", "Prefers risk-taking environments"),
   ("avoid conflict", "Avoid strict diplomacy environments"),
   ("conflict", "Avoid strict diplomacy environments"),
   ("diplomac", "Avoid strict diplomacy environments"),
   ("politic", "Avoid strict diplomacy environments"),
   ("confrontation", "Avoid strict diplomacy environments"),
   ("avoid strict", "Avoid strict adherence to standards"),
   ("standards", "Avoid strict adherence to standards"),
   ("compliance", "Avoid strict adherence to standards"),
   ("procedure", "Avoid strict adherence to standards"),
   ("decision", "Needs clear decisions (yes/no closure)"),
   ("closure", "Needs clear decisions (yes/no closure)"),
   ("clear outcome", "Needs clear decisions (yes/no closure)"),
   ("yes or no", "Needs clear decisions (yes/no closure)"),
   ("deadline", "Needs clear decisions (yes/no closure)"),
   ("detail", "Detail-oriented"),
   ("analytical", "Detail-oriented"),
   ("data", "Detail-oriented"),
   ("accuracy", "Detail-oriented"),
   ("precision", "Detail-oriented"),
   ("security", "Security / stability-seeking"),
   ("stability", "Security / stability-seeking"),
   ("certainty", "Security / stability-seeking"),
   ("predictab", "Security / stability-seeking"),
   ("guarantee", "Security / stability-seeking"),
   ("creative", "Creative / flexible"),
   ("innovative", "Creative / flexible"),
   ("adapt", "Creative / flexible"),
   ("relationship-focused", "Relationship-focused"),
   ("people-focused", "Relationship-focused"),
   ("helping", "Impact / helping-driven"),
   ("impact-driven", "Impact / helping-driven"),
   ("purpose", "Impact / helping-driven"),
   ("intellectual", "Big-picture thinker"),
   ("receptive", "People-oriented"),
   ("aesthetic", "Creative / flexible"),
   ("economic", "Competitive / challenge-driven"),
   ("individualistic", "Autonomy-seeking"),
   ("altruistic", "Impact / helping-driven"),
   ("regulatory", "Security / stability-seeking"),
   ("theoretical", "Big-picture thinker"),
   ("utilitarian", "Detail-oriented")]

/-- `signals._match_signals`. -/
def match_signals (label : String) : List String :=
  if label = "" then [] else
  let lower := pyStripL (label.data.map pyToLower)
  (PHRASE_TO_SIGNALS.foldl
    (fun (acc : List String) pt =>
      if containsSub pt.1.data lower && ¬ (pt.2 ∈ acc) then acc ++ [pt.2]
      else acc)
    [])

/-- `signals.MAX_EVIDENCE_PER_SIGNAL`. -/
def MAX_EVIDENCE_PER_SIGNAL : Nat := 2

/-- One normalized signal: additive score and capped evidence. -/
structure Signal where
  score : ℚ
  evidence : List (Option Int × String)
  deriving DecidableEq, Repr

/-- The `"evidence"` value of a fact handed to the normalizer: the usual
`{page, snippet}` dict, or a list of such dicts (vision-extractor shape). -/
inductive EvShape
  | dict (page : Option Int) (snippet : String)
  | list (items : List (Option Int × String))
  deriving Repr

/-- A fact as consumed by `normalize_facts_to_signals`. -/
structure SigFact where
  label : String
  ftype : String
  evidence : EvShape
  deriving Repr

/-- Insertion-ordered dict update used for `result[tag]`. -/
def updateSignal (tag : String) (f : Signal → Signal)
    (init : Signal) : List (String × Signal) → List (String × Signal)
  | [] => [(tag, f init)]
  | (k, v) :: rest =>
    if k = tag then (k, f v) :: rest else (k, v) :: updateSignal tag f init rest

/-- `signals.normalize_facts_to_signals`. -/
def normalize_facts_to_signals (facts : List SigFact) :
    List (String × Signal) :=
  facts.foldl
    (fun result fact =>
      let (page, snippet) :=
        match fact.evidence with
        | .list items =>
          match items.take 2 with
          | [] => (none, "")
          | it :: _ => (it.1, it.2)
        | .dict p s => (p, pyStrip s)
      let cleaned : Option String :=
        match prepare_evidence_for_display snippet 200 with
        | some c => some c
        | none =>
          if ¬ (snippet = "")
             && is_acceptable_evidence (clean_evidence_snippet snippet 200) then
            some (clean_evidence_snippet snippet 200)
          else none
      let evEntry : Option (Option Int × String) :=
        match cleaned with
        | some c => if c = "" then none else some (page, c)
        | none => none
      let tags := match_signals fact.label
      let tags := if tags.isEmpty then ["Relationship-focused"] else tags
      tags.foldl
        (fun result tag =>
          updateSignal tag
            (fun sig =>
              let sig := { sig with score := sig.score + 1 }
              match evEntry with
              | some e =>
                if sig.evidence.length < MAX_EVIDENCE_PER_SIGNAL then
                  { sig with evidence := sig.evidence ++ [e] }
                else sig
              | none => sig)
            ⟨0, []⟩ result)
        result)
    []

end SandiBot.Signals

namespace SandiBot.ContextPack

open SandiBot SandiBot.BuildGraph

/-! ## `src/kg/context_pack.py`

`recommendations` and `similar_clients` are produced by the separate
`recommendations`/`similarity` modules and never enter the fact-count
bound; the pack is modelled with the fact-carrying fields. -/

def MAX_FACTS_TOTAL : Nat := 12

def MAX_EVIDENCE_PER_FACT : Nat := 2

def MAX_SNIPPET_LEN : Nat := 240

/-- `context_pack._truncate`. -/
def truncate (s : String) (maxLen : Nat) : String :=
  if s = "" || s.length ≤ maxLen then s
  else if 3 < maxLen then ⟨dropLastSpaceWord (s.data.take (maxLen - 3)) ++ ['.', '.', '.']⟩
  else ⟨s.data.take maxLen⟩

/-- One evidence snippet of a pack fact. -/
structure PackEv where
  doc_id : Option String
  page : Nat
  snippet : String
  deriving DecidableEq, Repr

/-- One fact entry of a pack. -/
structure PackFact where
  label : String
  evidence : List PackEv
  deriving DecidableEq, Repr

/-- `context_pack._fact_entry` for the `{page, snippet}` evidence the graph
produces (the `_ev_list` wrapper puts it in a one-element list). -/
def factEntry (label : String) (evidenceList : List (Nat × String)) : PackFact :=
  let snippets := (evidenceList.take MAX_EVIDENCE_PER_FACT).foldl
    (fun acc ev =>
      if ev.2 = "" then acc
      else acc ++ [⟨none, ev.1, truncate ev.2 MAX_SNIPPET_LEN⟩])
    []
  ⟨⟨label.data.take 200⟩, snippets⟩

/-- The fact-carrying part of a context pack. -/
structure Pack where
  client_name : String
  traits : List PackFact
  drivers : List PackFact
  risks : List PackFact
  deriving DecidableEq, Repr

/-- `context_pack.build_context_pack`.  The arithmetic of the cap stays in
`Nat`: in the source every intermediate (`remaining`) is provably
non-negative, so Python and Nat subtraction agree. -/
def build_context_pack (G : Graph) (clientName : String) : Pack :=
  let cid := SandiBot.Ontology.client_id clientName
  if ¬ G.hasNode cid then ⟨clientName, [], [], []⟩ else
  let (tdrT, tdrD, tdrR) := get_client_traits_drivers_risks G clientName
  let traits := tdrT.map (fun t => factEntry t.label [(t.page, t.snippet)])
  let drivers := tdrD.map (fun d => factEntry d.label [(d.page, d.snippet)])
  let risks := tdrR.map (fun r => factEntry r.label [(r.page, r.snippet)])
  if MAX_FACTS_TOTAL < traits.length + drivers.length + risks.length then
    let traits := traits.take (min traits.length MAX_FACTS_TOTAL)
    let remaining := MAX_FACTS_TOTAL - traits.length
    let drivers := drivers.take (min drivers.length remaining)
    let remaining := remaining - drivers.length
    let risks := risks.take (min risks.length remaining)
    ⟨clientName, traits, drivers, risks⟩
  else ⟨clientName, traits, drivers, risks⟩

/-- `context_pack.count_facts_in_pack`. -/
def count_facts_in_pack (p : Pack) : Nat :=
  p.traits.length + p.drivers.length + p.risks.length

end SandiBot.ContextPack

namespace SandiBot.FitScoring

open SandiBot SandiBot.CleanText SandiBot.Signals

/-! ## `src/kg/fit_scoring.py`

Python floats are modelled by `ℚ`; the signal scores and weights the
pipeline produces are small integers, for which binary floating point is
exact. -/

/-- `fit_scoring._BOILERPLATE_PATTERNS[0]`:
`Behavioral\s+Characteristics\s+Based\s+on\b` at the head. -/
def behavioralBasedOnB (l : List Char) : Option (List Char) := do
  let r ← ciPre ['b', 'e', 'h', 'a', 'v', 'i', 'o', 'r', 'a', 'l'] l
  let r ← wsPlus r
  let r ← ciPre ['c', 'h', 'a', 'r', 'a', 'c', 't', 'e', 'r', 'i', 's', 't', 'i', 'c', 's'] r
  let r ← wsPlus r
  let r ← ciPre ['b', 'a', 's', 'e', 'd'] r
  let r ← wsPlus r
  let r ← ciPre ['o', 'n'] r
  match r with
  | [] => some r
  | c :: _ => if isWordCh c then none else some r

/-- Characters of Python `"\.,;:!?\-–— \t"` used by `out.strip(...)`. -/
def punctStripSet (c : Char) : Bool :=
  c = '.' || c = ',' || c = ';' || c = ':' || c = '!' || c = '?'
  || c = '-' || c = '–' || c = '—' || c = ' ' || c = '\t'

/-- `fit_scoring._clean_snippet`. -/
def clean_snippet (s : String) : String :=
  if s = "" then "" else
  let out := pyStripL (collapseWs s.data)
  let out := pyStripL (SandiBot.ExtractPdf.subAll behavioralBasedOnB out)
  let out := pyStripL (SandiBot.ExtractPdf.subAll SandiBot.ExtractPdf.basedOnFullMatch out)
  let out := pyStripL (SandiBot.ExtractPdf.subAll SandiBot.ExtractPdf.reportStatementsMatch out)
  let out := ((out.dropWhile punctStripSet).reverse.dropWhile punctStripSet).reverse
  ⟨out⟩

/-- `fit_scoring._JUNK_PHRASES`. -/
def JUNK_PHRASES : List String :=
  ["mask some of", "working as", "based on", "selected general statements"]

/-- `\b[a-zA-Z]+\b` search: a maximal letter run whose neighbours are
non-word characters (shortening the run would end it on a letter, so only
the maximal run can satisfy the closing boundary). -/
def hasWordLettersGo : Option Char → List Char → Bool
  | _, [] => false
  | prev, c :: cs =>
    (pyIsAlpha c
      && (match prev with | none => true | some p => ¬ isWordCh p)
      && (match cs.dropWhile pyIsAlpha with
          | [] => true
          | d :: _ => ¬ isWordCh d))
    || hasWordLettersGo (some c) cs

def hasWordLetters (l : List Char) : Bool := hasWordLettersGo none l

/-- `\b(?:Do|Don\'t)\s*:\s*` search (the terminal-punctuation exemption in
`_is_bad_evidence`). -/
def searchDoDontColonGo : Option Char → List Char → Bool
  | _, [] => false
  | prev, c :: cs =>
    ((match prev with | none => true | some p => ¬ isWordCh p)
      && SandiBot.ExtractPdf.matchDoDontColon (c :: cs))
    || searchDoDontColonGo (some c) cs

def searchDoDontColon (l : List Char) : Bool := searchDoDontColonGo none l

/-- `fit_scoring._is_bad_evidence`. -/
def is_bad_evidence (s : String) : Bool :=
  if s = "" then true else
  let t := pyStripL s.data
  if t.length < 18 then true else
  let isDoDont := matchDoDontLoose t
  if (t.headI).isLower && ¬ isDoDont then true
  else
    let lower := t.map pyToLower
    if JUNK_PHRASES.any (fun j => containsSub j.data lower) then true
    else if ¬ hasWordLetters t then true
    else if endsWithL ['.', '.', '.'] t && 2 ≤ countSub ['.', '.', '.'] t then true
    else if 20 < t.length && ¬ endsTerminal t && ¬ isDoDont
            && ¬ searchDoDontColon t then true
    else false

/-- `\b(?:people[- ]oriented|big thinker|direct|focused|results?)\b` search
(`results?` is greedy; with a trailing `s` the shorter alternative would end
on a word character, so exactly one of the two can close the boundary). -/
def qualityWordAt (l : List Char) : Bool :=
  let bAfter := fun (r : List Char) =>
    match r with
    | [] => true
    | c :: _ => ¬ isWordCh c
  let tryLit := fun (p : List Char) =>
    match ciPre p l with
    | some r => bAfter r
    | none => false
  tryLit ['p', 'e', 'o', 'p', 'l', 'e', '-', 'o', 'r', 'i', 'e', 'n', 't', 'e', 'd']
  || tryLit ['p', 'e', 'o', 'p', 'l', 'e', ' ', 'o', 'r', 'i', 'e', 'n', 't', 'e', 'd']
  || tryLit ['b', 'i', 'g', ' ', 't', 'h', 'i', 'n', 'k', 'e', 'r']
  || tryLit ['d', 'i', 'r', 'e', 'c', 't']
  || tryLit ['f', 'o', 'c', 'u', 's', 'e', 'd']
  || tryLit ['r', 'e', 's', 'u', 'l', 't', 's']
  || tryLit ['r', 'e', 's', 'u', 'l', 't']

def searchQualityWordGo : Option Char → List Char → Bool
  | _, [] => false
  | prev, c :: cs =>
    ((match prev with | none => true | some p => ¬ isWordCh p)
      && qualityWordAt (c :: cs))
    || searchQualityWordGo (some c) cs

def searchQualityWord (l : List Char) : Bool := searchQualityWordGo none l

/-- `fit_scoring._evidence_quality`.  (When `s` strips to nothing CPython
would fault at `s[-1]`; callers always pass a nonempty cleaned snippet.) -/
def evidence_quality (s : String) : Int :=
  if s = "" then 0 else
  let t := pyStripL s.data
  let score : Int := 0
  let score := if matchDoDontLoose t then score + 50 else score
  let score :=
    if 20 ≤ t.length && t.length ≤ 120 then score + 20
    else if 18 ≤ t.length && t.length ≤ 150 then score + 10
    else score
  let score := if endsTerminal t then score + 10 else score
  let score := if searchQualityWord t then score + 5 else score
  let score :=
    if ¬ containsSub ['.', '.', '.'] t || countSub ['.', '.', '.'] t < 2 then
      score + 5
    else score
  score

/-- `fit_scoring._signal_to_label`: `replace("_", " ").strip().title()`. -/
def signal_to_label (tag : String) : String :=
  if tag = "" then "" else
  let repl := tag.data.map (fun c => if c = '_' then ' ' else c)
  let t := pyStripL repl
  let titled :=
    (t.foldl
      (fun (st : Bool × List Char) c =>
        let (prevAlpha, out) := st
        if pyIsAlpha c then
          (true, out ++ [if prevAlpha then c.toLower else c.toUpper])
        else (false, out ++ [c]))
      (false, [])).2
  ⟨titled⟩

/-- Stable insertion sort: `lt a b` means `a` must precede `b`; ties keep
the input order, matching CPython's stable `list.sort`. -/
def insertStable {α : Type} (lt : α → α → Bool) (x : α) : List α → List α
  | [] => [x]
  | y :: ys => if lt y x then y :: insertStable lt x ys else x :: y :: ys

def stableSort {α : Type} (lt : α → α → Bool) : List α → List α
  | [] => []
  | x :: xs => insertStable lt x (stableSort lt xs)

/-- `fit_scoring._MAX_EVIDENCE_BULLETS`. -/
def MAX_EVIDENCE_BULLETS : Nat := 2

/-- `fit_scoring._MAX_WATCH_OUTS`. -/
def MAX_WATCH_OUTS : Nat := 2

/-- `fit_scoring._pick_evidence`. -/
def pick_evidence (signals : List (String × Signal)) (topSignals : List String)
    (maxBullets : Nat := MAX_EVIDENCE_BULLETS) : List (Int × String) :=
  let candidates := topSignals.foldl
    (fun (acc : List (Int × Int × String)) tag =>
      let evs := match signals.find? (fun p => p.1 = tag) with
        | some (_, sig) => sig.evidence
        | none => []
      evs.foldl
        (fun acc ev =>
          let raw := pyStrip ev.2
          if raw = "" then acc else
          let cleaned := clean_snippet raw
          if cleaned = "" || is_bad_evidence cleaned then acc
          else if ¬ is_acceptable_evidence cleaned then acc
          else
            let page : Int := (ev.1).getD 0
            let quality := evidence_quality cleaned
            let shown : String :=
              if 200 < cleaned.length then ⟨cleaned.data.take 200⟩ else cleaned
            acc ++ [(quality, page, shown)])
        acc)
    []
  let sorted := stableSort
    (fun a b => a.1 > b.1 || (a.1 = b.1 && a.2.1 < b.2.1)) candidates
  (sorted.foldl
    (fun (st : List String × List (Int × String)) cand =>
      let (seen, out) := st
      if maxBullets ≤ out.length then st else
      let key : String := ⟨(pyStripL cand.2.2.data).map pyToLower |>.take 120⟩
      if key ∈ seen then st
      else (seen ++ [key], out ++ [(cand.2.1, cand.2.2)]))
    ([], [])).2

/-- An archetype definition (`requires`/`avoid` weights may be `None`). -/
structure Archetype where
  name : String
  description : String
  requires : List (String × Option ℚ)
  avoid : List (String × Option ℚ)
  recommended_actions : List String
  deriving Repr

/-- One scored archetype row. -/
structure ScoredArch where
  name : String
  description : String
  score : ℚ
  rationale : String
  evidence_used : List (Int × String)
  watch_outs : List String
  recommended_actions : List String
  deriving DecidableEq, Repr

/-- CPython `round(x, 2)` on exactly-representable values: round half to
even at the second decimal. -/
def pyRound2 (q : ℚ) : ℚ :=
  let x := q * 100
  let f : Int := Int.floor x
  let r := x - (f : ℚ)
  let n : Int :=
    if r < 1 / 2 then f
    else if 1 / 2 < r then f + 1
    else if Even f then f else f + 1
  (n : ℚ) / 100

/-- Signal score lookup: `float(sig.get("score") or 0)`. -/
def sigScore (signals : List (String × Signal)) (tag : String) : ℚ :=
  match signals.find? (fun p => p.1 = tag) with
  | some (_, sig) => sig.score
  | none => 0

/-- `fit_scoring.score_archetypes`. -/
def score_archetypes (signals : List (String × Signal))
    (archetypes : List Archetype) (topN : Nat := 5) : List ScoredArch :=
  let scored := archetypes.map (fun arch =>
    let contributions := arch.requires.map (fun rw =>
      let w : ℚ := match rw.2 with | some w => w | none => 1
      (rw.1, sigScore signals rw.1 * w, sigScore signals rw.1))
    let pos : ℚ := (contributions.map (fun c => c.2.1)).sum
    let contributing := (contributions.filter (fun c => 0 < c.2.2)).map
      (fun c => (c.1, c.2.1))
    let avoided := arch.avoid.map (fun rw =>
      let w : ℚ := match rw.2 with | some w => w | none => 1
      (rw.1, sigScore signals rw.1 * w, sigScore signals rw.1))
    let neg : ℚ := (avoided.map (fun c => c.2.1)).sum
    let watchOutTags := ((avoided.filter (fun c => 0 < c.2.2)).map (fun c => c.1))
    let rawScore := pos - neg
    let sortedContrib := stableSort (fun a b => a.2 > b.2) contributing
    let topSignals := (sortedContrib.take 3).map (fun c => c.1)
    let labels := (topSignals.filter (fun t => ¬ (t = ""))).map signal_to_label
    let rationale :=
      if ¬ labels.isEmpty then "Why: " ++ pyJoin "; " labels
      else "Limited signal match."
    let evidenceUsed := pick_evidence signals topSignals MAX_EVIDENCE_BULLETS
    let watchOuts := (watchOutTags.take MAX_WATCH_OUTS).map
      (fun tag => "Watch-out: " ++ signal_to_label tag ++ " — adjust approach")
    (⟨arch.name, arch.description, pyRound2 rawScore, rationale,
      evidenceUsed, watchOuts, arch.recommended_actions⟩ : ScoredArch))
  (stableSort (fun a b => a.score > b.score) scored).take topN

end SandiBot.FitScoring

namespace SandiBot.StrategyAdvisor

open SandiBot

/-! ## `src/kg/strategy_advisor.py` -/

/-- A piece of one alternative of the intent regexes: a literal chunk or
`\s+`. -/
inductive Seg
  | lit (s : List Char)
  | ws

/-- Match a sequence of segments at the head (the question is already
lowercased, so the literals match case-sensitively as in the source). -/
def matchSegs : List Seg → List Char → Option (List Char)
  | [], l => some l
  | .lit s :: rest, l =>
    match litPre s l with
    | some r => matchSegs rest r
    | none => none
  | .ws :: rest, l =>
    match wsPlus l with
    | some r => matchSegs rest r
    | none => none

/-- `re.search(r"\b(alt|...)\b", q)`: a position with a word boundary before
it where some alternative matches and ends on a word boundary. -/
def searchAltsGo (alts : List (List Seg)) : Option Char → List Char → Bool
  | _, [] => false
  | prev, c :: cs =>
    ((match prev with | none => true | some p => ¬ isWordCh p)
      && alts.any (fun alt =>
        match matchSegs alt (c :: cs) with
        | some r =>
          (match r with
           | [] => true
           | d :: _ => ¬ isWordCh d)
        | none => false))
    || searchAltsGo alts (some c) cs

def searchAlts (alts : List (List Seg)) (l : List Char) : Bool :=
  searchAltsGo alts none l

/-- `strategy_advisor._question_intent`. -/
def question_intent (question : String) : String :=
  let q := pyStripL (question.data.map pyToLower)
  if q.isEmpty then "general" else
  if searchAlts
    [[.lit ['h', 'o', 'w'], .ws, .lit ['s', 'h', 'o', 'u', 'l', 'd', ' ', 'i'], .ws,
      .lit ['a', 'p', 'p', 'r', 'o', 'a', 'c', 'h']],
     [.lit ['a', 'p', 'p', 'r', 'o', 'a', 'c', 'h'], .ws, .lit ['t', 'h', 'e', 'm']],
     [.lit ['b', 'e', 's', 't'], .ws, .lit ['w', 'a', 'y'], .ws, .lit ['t', 'o']]] q then
    "approach"
  else if searchAlts
    [[.lit ['r', 'i', 's', 'k']],
     [.lit ['w', 'a', 't', 'c', 'h'], .ws, .lit ['o', 'u', 't']],
     [.lit ['a', 'v', 'o', 'i', 'd']],
     [.lit ['p', 'i', 't', 'f', 'a', 'l', 'l']]] q then "risk"
  else if searchAlts
    [[.lit ['n', 'e', 'e', 'd']],
     [.lit ['w', 'a', 'n', 't']],
     [.lit ['m', 'o', 't', 'i', 'v', 'a', 't']],
     [.lit ['d', 'r', 'i', 'v', 'e', 'r']],
     [.lit ['v', 'a', 'l', 'u', 'e']]] q then "need"
  else if searchAlts
    [[.lit ['n', 'e', 'x', 't'], .ws, .lit ['s', 't', 'e', 'p']],
     [.lit ['w', 'h', 'a', 't'], .ws, .lit ['t', 'o'], .ws, .lit ['d', 'o']],
     [.lit ['s', 'u', 'g', 'g', 'e', 's', 't', 'e', 'd'], .ws,
      .lit ['a', 'c', 't', 'i', 'o', 'n']]] q then "next_step"
  else if searchAlts
    [[.lit ['m', 'o', 'n', 'e', 'y']],
     [.lit ['f', 'i', 'n', 'a', 'n', 'c', 'i', 'a', 'l']],
     [.lit ['i', 'n', 'v', 'e', 's', 't', 'm', 'e', 'n', 't']],
     [.lit ['p', 'r', 'i', 'c', 'e']]] q then "money"
  else if searchAlts
    [[.lit ['d', 'e', 'c', 'i', 's', 'i', 'o', 'n']],
     [.lit ['d', 'e', 'c', 'i', 'd', 'e']],
     [.lit ['c', 'o', 'm', 'm', 'i', 't']]] q then "decision"
  else "general"

/-- One trait/driver/risk item of the advisor's context. -/
structure CtxItem where
  label : String
  page : Nat := 0
  snippet : String := ""
  deriving DecidableEq, Repr

/-- The context dict `advise` consumes. -/
structure Context where
  client_name : String
  traits : List CtxItem
  drivers : List CtxItem
  risks : List CtxItem
  deriving Repr

/-- `strategy_advisor._cite`. -/
def cite (labels : List String) (kind : String) : String :=
  if labels.isEmpty then ""
  else kind ++ "(s): " ++ pyJoin "; " (labels.take 5) ++ "."

/-- The advisor's answer dict. -/
structure AdviseResult where
  recommendation : String
  why : String
  signals_still_missing : List String
  suggested_next_step : String
  deriving DecidableEq, Repr

/-- `strategy_advisor.advise`. -/
def advise (context : Context) (userQuestion : String) : AdviseResult :=
  let traits := context.traits.map (fun i => pyStrip i.label)
  let drivers := context.drivers.map (fun i => pyStrip i.label)
  let risks := context.risks.map (fun i => pyStrip i.label)
  if traits.isEmpty && drivers.isEmpty && risks.isEmpty then
    { recommendation := "Not enough evidence in graph.",
      why := "",
      signals_still_missing :=
        ["Upload a personality report or build insights for this client."],
      suggested_next_step := "Upload a PDF and click Build Insights, then ask again." }
  else
    let traitLabels := traits.filter (fun l => ¬ (l = ""))
    let driverLabels := drivers.filter (fun l => ¬ (l = ""))
    let riskLabels := risks.filter (fun l => ¬ (l = ""))
    let intent := question_intent userQuestion
    let hasSub := fun (l : String) (pat : String) =>
      containsSub pat.data (l.data.map pyToLower)
    let (recommendation, whyParts, signalsMissing, nextStep) :
        String × List String × List String × String :=
      if intent = "approach" then
        let (rec0, why0) :=
          if ¬ driverLabels.isEmpty then
            ("Lead with what motivates them: frame the conversation around "
               ++ driverLabels.headI ++ ".",
             [cite (driverLabels.take 2) "Driver"])
          else ("", [])
        let (rec1, why1) :=
          if ¬ riskLabels.isEmpty then
            (if ¬ (rec0 = "") then
               (rec0 ++ " Avoid triggering: " ++ riskLabels.headI ++ ".",
                why0 ++ [cite (riskLabels.take 2) "Risk"])
             else
               ("Avoid triggering: " ++ riskLabels.headI
                  ++ ". Adjust tone and pace accordingly.",
                why0 ++ [cite (riskLabels.take 2) "Risk"]))
          else (rec0, why0)
        let (rec2, why2) :=
          if ¬ traitLabels.isEmpty && rec1 = "" then
            ("Match their style: " ++ traitLabels.headI
               ++ ". Use that to shape your ask.",
             why1 ++ [cite (traitLabels.take 2) "Trait"])
          else (rec1, why1)
        let (rec3, why3) :=
          if rec2 = "" then
            ("Use the traits and drivers above to tailor your opening; keep the ask clear and time-bound.",
             why2 ++ [cite (traitLabels ++ driverLabels) "Trait/Driver"])
          else (rec2, why2)
        (rec3, why3, [], "")
      else if intent = "risk" then
        let (rec0, why0) :=
          if ¬ riskLabels.isEmpty then
            ("Primary risk in graph: " ++ riskLabels.headI
               ++ ". Plan to mitigate (e.g. reframe, small step, or name it gently).",
             [cite riskLabels "Risk"])
          else
            ("No explicit risks in graph. Stay alert to hesitation or avoidance in the conversation.",
             [cite (traitLabels.take 2) "Trait"])
        (rec0, why0,
         if ¬ riskLabels.isEmpty then ["Specific situations that trigger the risk."]
         else ["What they tend to avoid or fear."], "")
      else if intent = "need" then
        let (rec0, why0) :=
          if ¬ driverLabels.isEmpty then
            ("Address their drivers: " ++ pyJoin ", " (driverLabels.take 3)
               ++ ". Tie your recommendation to how it serves these.",
             [cite driverLabels "Driver"])
          else
            ("No drivers in graph. Ask in the next call: 'What would make this a clear yes for you?'",
             ["No drivers extracted yet."])
        (rec0, why0,
         if ¬ driverLabels.isEmpty then ["How strongly each driver ranks."]
         else ["What they value most."], "")
      else if intent = "next_step" then
        let (rec0, why0) :=
          if ¬ riskLabels.isEmpty
             && riskLabels.any (fun r =>
               hasSub r "decision" || hasSub r "overthink" || hasSub r "avoid") then
            ("Give one clear next step and one deadline. Avoid open-ended options.",
             [cite riskLabels "Risk"])
          else if ¬ driverLabels.isEmpty then
            ("Frame the next step as something they own: e.g. 'You choose the date' or 'You set the outcome.'",
             [cite (driverLabels.take 2) "Driver"])
          else
            ("Propose one concrete action and one short-term checkpoint (e.g. 48 hours).",
             [cite (traitLabels.take 2) "Trait"])
        (rec0, why0, [],
         "In the next call: state the one action, the deadline, and ask: 'What would need to be true for you to do this by then?'")
      else if intent = "money" then
        let moneyRisks := riskLabels.filter (fun r =>
          hasSub r "money" || hasSub r "financial")
        let (rec0, why0) :=
          if ¬ moneyRisks.isEmpty then
            ("Introduce money early and calmly; confirm comfort level before numbers. Use their language.",
             [cite moneyRisks "Risk"])
          else
            ("No money-specific risk in graph. Still: name the investment and the return in their terms (drivers/traits).",
             [cite (driverLabels ++ traitLabels.take 1) "Driver/Trait"])
        (rec0, why0,
         if moneyRisks.isEmpty then ["Their past experience with money conversations."]
         else [], "")
      else if intent = "decision" then
        let decisionRisks := riskLabels.filter (fun r =>
          hasSub r "decision" || hasSub r "overthink" || hasSub r "paralysis")
        let (rec0, why0) :=
          if ¬ decisionRisks.isEmpty then
            ("Limit options to 2 and set a decision deadline. Offer: 'A or B by [date].'",
             [cite decisionRisks "Risk"])
          else
            ("Be explicit: 'I need a yes or no by X.' Then pause. Use traits to choose tone.",
             [cite (traitLabels.take 2) "Trait"])
        (rec0, why0, [],
         "Ask: 'What would need to be true for you to decide by [date]?'")
      else
        let why0 := [cite (traitLabels.take 2) "Trait", cite (driverLabels.take 2) "Driver"]
        let why0 :=
          if ¬ riskLabels.isEmpty then why0 ++ [cite (riskLabels.take 2) "Risk"]
          else why0
        ("Use traits to match style, drivers to motivate, and risks to avoid pitfalls. Keep one clear ask and one deadline.",
         why0,
         if ¬ ((riskLabels ++ traitLabels).any (fun r =>
             hasSub r "time" || hasSub r "deadline")) then ["Their timeline."]
         else [], "")
    let why :=
      if ¬ whyParts.isEmpty then pyJoin " " whyParts
      else "Based on the traits, drivers, and risks in the graph."
    let nextStep :=
      if nextStep = "" then
        "In the next call: one clear ask, one deadline, and one check for blockers."
      else nextStep
    { recommendation :=
        if recommendation = "" then "Not enough evidence in graph." else recommendation,
      why := why,
      signals_still_missing := signalsMissing,
      suggested_next_step := nextStep }

end SandiBot.StrategyAdvisor

namespace SandiBot.PageUI

open SandiBot SandiBot.Storage SandiBot.BuildGraph SandiBot.ExtractPdf

/-! ## `src/kg/page_ui.py` — the Generate Fit Report handler

The handler's persistent effects are on three stores: the facts JSONL, the
per-client index and the persisted graph, gathered in `St`.  Session state
and everything rendered (`st.*` widgets, debug info, the upload copy under
`data/uploads/`) has no effect on later processing and is not modelled.
`doc_id` stands for `storage.doc_id_from_bytes` (sha256) of the uploaded
bytes, and the `ExtractResult` argument for what `extract_facts` returns on
them: both are pure functions of the bytes, so a byte-identical re-upload
presents the same values. -/

/-- `page_ui._client_slug`: identical to `storage._client_slug` except that
the empty-slug fallback is `"client"`, not `"unknown"`. -/
def client_slug (name : String) : String :=
  let kept := (pyStripL name.data).filter
    (fun c => pyIsAlnum c || c = ' ' || c = '-' || c = '_')
  let repl := kept.map (fun c => if c = ' ' || c = '-' then '_' else c)
  let cut := repl.take 64
  if cut.isEmpty then "client" else ⟨cut⟩

/-- The persistent stores the handler reads and writes. -/
structure St where
  factsLog : List FactRow
  index : Index
  graph : Graph

/-- How one invocation of the handler classified the upload. -/
inductive Detection
  | index
  | legacyScan
  | reprocessed
  | extractionFailed
  | rejected
  deriving DecidableEq, Repr

/-- The already-processed branch (`page_ui.render`, lines 170–202): when the
loaded graph is empty but facts exist, rebuild from the log and save; no
fact row is ever appended here. -/
def alreadyBranch (st : St) : St :=
  let G := load_graph st.graph st.factsLog
  if G.nodeCount = 0 && ¬ st.factsLog.isEmpty then
    { st with graph := rebuild_graph_from_facts st.factsLog }
  else st

/-- The `build_clicked` handler (`page_ui.render`, lines 156–239) as a step
on the persistent stores, returning how the upload was classified. -/
def processDocument (st : St) (clientName docId : String)
    (e : ExtractResult) : St × Detection :=
  let current := pyStrip clientName
  if current = "" then (st, .rejected) else
  let slug := client_slug current
  let already := client_has_doc_id st.index current docId
  if already then (alreadyBranch st, .index)
  else if ¬ (load_facts_for_client st.factsLog current (some docId)).isEmpty then
    let st := { st with index := register_processed_doc st.index slug docId }
    (alreadyBranch st, .legacyScan)
  else if e.extraction_status = "text_extraction_failed" then
    (st, .extractionFailed)
  else
    let rows := e.facts.map (fun f =>
      ({ client_slug := slug, client_display_name := current,
         client_name := current, doc_id := docId, ftype := f.ftype,
         label := f.label, page := f.page, snippet := f.snippet } : FactRow))
    let st := { st with factsLog := st.factsLog ++ rows }
    let G := load_graph st.graph st.factsLog
    let G := merge_facts_into_graph G ⟨current, docId, e.facts⟩
    let st := { st with graph := G }
    let st := { st with index := register_processed_doc st.index slug docId }
    (st, .reprocessed)

/-- The facts-log rows one handler invocation appends. -/
def mkRows (current docId : String) (e : ExtractResult) : List FactRow :=
  e.facts.map (fun f =>
    ({ client_slug := client_slug current, client_display_name := current,
       client_name := current, doc_id := docId, ftype := f.ftype,
       label := f.label, page := f.page, snippet := f.snippet } : FactRow))

/-- The state after the fresh-extraction branch. -/
def reprocessedState (st : St) (current docId : String) (e : ExtractResult) : St :=
  let log := st.factsLog ++ mkRows current docId e
  { factsLog := log,
    index := register_processed_doc st.index (client_slug current) docId,
    graph := merge_facts_into_graph (load_graph st.graph log)
      ⟨current, docId, e.facts⟩ }

end SandiBot.PageUI

namespace SandiBot.FitScoring

/-! Spec-side definitions for the Fit Scorer claim: the score formula as the
specification words it (`score = Σ(signal.score × requires_weight) −
Σ(signal.score × avoid_weight)`), to be compared with `score_archetypes`. -/

/-- `Σ(signal.score × requires_weight)` over an archetype's `requires`
(an absent weight counts as 1, as in the source). -/
def requiresSum (signals : List (String × Signals.Signal)) (a : Archetype) : ℚ :=
  (a.requires.map (fun rw =>
    sigScore signals rw.1 * (match rw.2 with | some w => w | none => 1))).sum

/-- `Σ(signal.score × avoid_weight)` over an archetype's `avoid`. -/
def avoidSum (signals : List (String × Signals.Signal)) (a : Archetype) : ℚ :=
  (a.avoid.map (fun rw =>
    sigScore signals rw.1 * (match rw.2 with | some w => w | none => 1))).sum

/-- The spec scenario's signal table: `{"Autonomy-seeking": {"score": 3.0}}`. -/
def demoSignals : List (String × Signals.Signal) :=
  [("Autonomy-seeking", ⟨3, []⟩)]

/-- The spec scenario's archetype:
`requires: {"Autonomy-seeking": 2}, avoid: {}`. -/
def demoArchetype : Archetype :=
  ⟨"Solo Builder", "", [("Autonomy-seeking", some 2)], [], []⟩

end SandiBot.FitScoring

/-! ## Theorems -/

open SandiBot

namespace SandiBot

/-- `pyStripL` yields a sublist (used to push character-class facts through
stripping). -/
theorem pyStripL_sublist (l : List Char) : (pyStripL l).Sublist l := by
  have h1 : (l.dropWhile pyIsSpace).Sublist l := List.dropWhile_sublist _
  have h2 : ((l.dropWhile pyIsSpace).reverse.dropWhile pyIsSpace).Sublist
      (l.dropWhile pyIsSpace).reverse := List.dropWhile_sublist _
  have h3 := h2.reverse
  simp only [List.reverse_reverse] at h3
  exact h3.trans h1

theorem mem_of_mem_pyStripL {c : Char} {l : List Char} (h : c ∈ pyStripL l) :
    c ∈ l := (pyStripL_sublist l).mem h

end SandiBot

/-- C2 (code bug): the code's own stage-(c) comment and the spec scenario
promise that a page containing the line `Intellectual (82)` yields a
`driver` fact with label `Intellectual` and score 82, but the evidence
snippet `Intellectual (82)` is 17 characters (18 once a period is added),
below `is_acceptable_evidence`'s 25-character minimum, so `_evidence_entry`
returns `None` and the fact is dropped; a page holding just this line even
fails the 1500-character floor first. -/
theorem c2_intellectual_82_driver_fact_dropped :
    SandiBot.ExtractPdf.evidenceEntry 1 "Intellectual (82)" = none
    ∧ (SandiBot.ExtractPdf.extractFactsFromPages [⟨1, "Intellectual (82)"⟩]).1 = []
    ∧ (SandiBot.ExtractPdf.extract_facts "Jane Doe" "doc1" true true
        [⟨1, "Intellectual (82)"⟩] [⟨1, "Intellectual (82)"⟩]).facts = []
    ∧ SandiBot.CleanText.is_acceptable_evidence "Intellectual (82)." = false := by
  exact ⟨by decide, by decide, by decide, by decide⟩

/-- C3 (counterexample): `is_acceptable_evidence` rejects the Do/Don't
construct `"do: be direct with them."` because its first character is
lowercase — the lowercase rejection is not waived for Do/Don't lines. -/
theorem c3_do_dont_lowercase_still_rejected :
    SandiBot.CleanText.is_acceptable_evidence "do: be direct with them." = false
    ∧ matchDoDontCTStr "do: be direct with them." = true := by
  exact ⟨by decide, by decide⟩

/-- C3 (amended): the lowercase-first-character rejection of
`is_acceptable_evidence` is unconditional — it applies to Do:/Don't:
constructs too; the Do/Don't exemption covers only the 25-character minimum
length check. -/
theorem c3_lowercase_rejection_unconditional (s : String)
    (h : ((pyStripL (SandiBot.CleanText.normalize_whitespace s).data).headI).isLower
          = true) :
    SandiBot.CleanText.is_acceptable_evidence s = false := by
  unfold SandiBot.CleanText.is_acceptable_evidence
  by_cases h0 : s = ""
  · simp [h0]
  · simp only [h0, if_false]
    split_ifs
    all_goals first | rfl | exact absurd h ‹_›

/-- C3 witness: the amended theorem applied to the lowercase Do-line. -/
theorem c3_lowercase_rejection_unconditional_witness :
    SandiBot.CleanText.is_acceptable_evidence "do: be direct with them. Keep it short always." = false :=
  c3_lowercase_rejection_unconditional "do: be direct with them. Keep it short always." (by decide)

/-- C8: with empty trait, driver and risk lists in the context, `advise`
answers exactly `"Not enough evidence in graph."` whatever the question. -/
theorem c8_advise_empty_context_fixed_answer
    (ctx : SandiBot.StrategyAdvisor.Context) (q : String)
    (ht : ctx.traits = []) (hd : ctx.drivers = []) (hr : ctx.risks = []) :
    (SandiBot.StrategyAdvisor.advise ctx q).recommendation
      = "Not enough evidence in graph." := by
  unfold SandiBot.StrategyAdvisor.advise
  rw [ht, hd, hr]
  simp

/-- C8 witness: the theorem applied to an empty context and a concrete
question. -/
theorem c8_advise_empty_context_fixed_answer_witness :
    (SandiBot.StrategyAdvisor.advise ⟨"Jane Doe", [], [], []⟩
      "How should I approach them?").recommendation
      = "Not enough evidence in graph." :=
  c8_advise_empty_context_fixed_answer ⟨"Jane Doe", [], [], []⟩
    "How should I approach them?" rfl rfl rfl

/-- C6: when both backends' page texts together stay below the 1500-character
floor, `extract_facts` reports the terminal status `text_extraction_failed`
with no facts and the fixed actionable message (the embedding is a total
function — no exception, and the returned record is final: no retry). -/
theorem c6_short_text_is_terminal_failure
    (clientName docId : String) (pagesA pagesB : List SandiBot.ExtractPdf.Page)
    (hA : SandiBot.ExtractPdf.totalChars pagesA < SandiBot.ExtractPdf.MIN_CHARS_OK)
    (hB : SandiBot.ExtractPdf.totalChars pagesB < SandiBot.ExtractPdf.MIN_CHARS_OK) :
    (SandiBot.ExtractPdf.extract_facts clientName docId true true pagesA pagesB).extraction_status
        = "text_extraction_failed"
    ∧ (SandiBot.ExtractPdf.extract_facts clientName docId true true pagesA pagesB).facts = []
    ∧ (SandiBot.ExtractPdf.extract_facts clientName docId true true pagesA pagesB).extraction_message
        = some ("This PDF appears to be scanned images; text extraction returned near-zero. "
                ++ "Please upload a text-based PDF.") := by
  unfold SandiBot.ExtractPdf.extract_facts
  simp [hA, hB]

/-- C6 witness: a one-page, one-character document through both backends. -/
theorem c6_short_text_is_terminal_failure_witness :
    (SandiBot.ExtractPdf.extract_facts "Jane Doe" "doc1" true true
        [⟨1, "x"⟩] [⟨1, "y"⟩]).extraction_status = "text_extraction_failed"
    ∧ (SandiBot.ExtractPdf.extract_facts "Jane Doe" "doc1" true true
        [⟨1, "x"⟩] [⟨1, "y"⟩]).facts = [] :=
  ⟨(c6_short_text_is_terminal_failure "Jane Doe" "doc1" [⟨1, "x"⟩] [⟨1, "y"⟩]
      (by decide) (by decide)).1,
   (c6_short_text_is_terminal_failure "Jane Doe" "doc1" [⟨1, "x"⟩] [⟨1, "y"⟩]
      (by decide) (by decide)).2.1⟩

/-- C10: a client name whose characters are all outside the kept classes
(alphanumeric, space, hyphen, underscore) — the empty string included — is
mapped by both slug functions to the fixed slug `"unknown"`; two distinct
such names therefore share one per-client index file (same slug) and one
graph client node (same `client_id`). -/
theorem c10_degenerate_names_share_unknown_slug (s₁ s₂ : String)
    (h₁ : ∀ c ∈ s₁.data, (pyIsAlnum c || c = ' ' || c = '-' || c = '_') = false)
    (h₂ : ∀ c ∈ s₂.data, (pyIsAlnum c || c = ' ' || c = '-' || c = '_') = false) :
    SandiBot.Storage.client_slug s₁ = "unknown"
    ∧ SandiBot.Ontology.slug s₁ = "unknown"
    ∧ SandiBot.Ontology.client_id s₁ = "client:unknown"
    ∧ SandiBot.Storage.client_slug s₁ = SandiBot.Storage.client_slug s₂
    ∧ SandiBot.Ontology.client_id s₁ = SandiBot.Ontology.client_id s₂ := by
  have key : ∀ (s : String), (∀ c ∈ s.data,
      (pyIsAlnum c || c = ' ' || c = '-' || c = '_') = false) →
      ((pyStripL s.data).filter
        (fun c => pyIsAlnum c || c = ' ' || c = '-' || c = '_')) = [] := by
    intro s h
    refine List.filter_eq_nil.mpr ?_
    intro c hc
    have := h c (mem_of_mem_pyStripL hc)
    simp [this]
  have e₁ := key s₁ h₁
  have e₂ := key s₂ h₂
  have slug₁ : SandiBot.Storage.client_slug s₁ = "unknown" := by
    unfold SandiBot.Storage.client_slug
    rw [e₁]
    rfl
  have slug₂ : SandiBot.Storage.client_slug s₂ = "unknown" := by
    unfold SandiBot.Storage.client_slug
    rw [e₂]
    rfl
  have oslug₁ : SandiBot.Ontology.slug s₁ = "unknown" := by
    unfold SandiBot.Ontology.slug
    rw [e₁]
    rfl
  have oslug₂ : SandiBot.Ontology.slug s₂ = "unknown" := by
    unfold SandiBot.Ontology.slug
    rw [e₂]
    rfl
  refine ⟨slug₁, oslug₁, ?_, ?_, ?_⟩
  · unfold SandiBot.Ontology.client_id
    rw [oslug₁]
    rfl
  · rw [slug₁, slug₂]
  · unfold SandiBot.Ontology.client_id
    rw [oslug₁, oslug₂]

/-- C10 witness: `"???"` and `"!!!"` collapse to the same identity. -/
theorem c10_degenerate_names_share_unknown_slug_witness :
    SandiBot.Storage.client_slug "???" = "unknown"
    ∧ SandiBot.Ontology.client_id "???" = SandiBot.Ontology.client_id "!!!" :=
  ⟨(c10_degenerate_names_share_unknown_slug "???" "!!!" (by decide) (by decide)).1,
   (c10_degenerate_names_share_unknown_slug "???" "!!!" (by decide) (by decide)).2.2.2.2⟩

namespace SandiBot

theorem pyStripL_length_le (l : List Char) : (pyStripL l).length ≤ l.length :=
  (pyStripL_sublist l).length_le

theorem dropWhile_append_dots (q : List Char) :
    List.dropWhile pyIsSpace (q ++ ['.', '.', '.'])
      = q.dropWhile pyIsSpace ++ ['.', '.', '.'] := by
  induction q with
  | nil => decide
  | cons c cs ih =>
    by_cases hc : pyIsSpace c = true
    · simpa [List.dropWhile, hc] using ih
    · simp [List.dropWhile, hc]

theorem pyStripL_append_dots (q : List Char) :
    pyStripL (q ++ ['.', '.', '.'])
      = q.dropWhile pyIsSpace ++ ['.', '.', '.'] := by
  unfold pyStripL
  rw [dropWhile_append_dots]
  rw [List.reverse_append]
  have : List.dropWhile pyIsSpace
      (['.', '.', '.'].reverse ++ (q.dropWhile pyIsSpace).reverse)
      = ['.', '.', '.'].reverse ++ (q.dropWhile pyIsSpace).reverse := by
    simp [List.dropWhile, pyIsSpace]
  rw [this]
  simp

theorem endsTerminal_append_dots (q : List Char) :
    CleanText.endsTerminal (q ++ ['.', '.', '.']) = true := by
  unfold CleanText.endsTerminal
  rw [List.getLast?_append_of_ne_nil q (by decide)]
  rfl

theorem endsTerminal_concat_dot (q : List Char) :
    CleanText.endsTerminal (q ++ ['.']) = true := by
  unfold CleanText.endsTerminal
  rw [List.getLast?_append_of_ne_nil q (by decide)]
  rfl

theorem endsWithL_append_self (d q : List Char) : endsWithL d (q ++ d) = true := by
  unfold endsWithL
  exact List.isSuffixOf_iff_suffix.mpr ⟨q, rfl⟩

theorem endsTerminal_of_endsWith_dots {t : List Char}
    (h : endsWithL ['.', '.', '.'] t = true) : CleanText.endsTerminal t = true := by
  obtain ⟨q, rfl⟩ := List.isSuffixOf_iff_suffix.mp h
  exact endsTerminal_append_dots q

/-- `ensure_ending` leaves a `...`-terminated string alone (up to the strip
of leading whitespace, which never occurs at its call site). -/
theorem ensure_ending_append_dots (q : List Char) :
    CleanText.ensure_ending ⟨q ++ ['.', '.', '.']⟩
      = ⟨q.dropWhile pyIsSpace ++ ['.', '.', '.']⟩ := by
  unfold CleanText.ensure_ending
  have hne : ¬ ((⟨q ++ ['.', '.', '.']⟩ : String) = "") := by
    intro h
    have := congrArg String.data h
    simp at this
  have hlen : ¬ ((⟨q ++ ['.', '.', '.']⟩ : String).length < 3) := by
    show ¬ ((q ++ ['.', '.', '.']).length < 3)
    simp
  rw [if_neg (by simp [hne, hlen])]
  have hdata : (⟨q ++ ['.', '.', '.']⟩ : String).data = q ++ ['.', '.', '.'] := rfl
  rw [hdata, pyStripL_append_dots]
  dsimp only
  split_ifs with h1 h2 h3 h4
  · rfl
  · rfl
  · rfl
  · rfl
  · exact absurd (endsTerminal_append_dots _) h3

end SandiBot

namespace SandiBot

theorem length_dropWhile_le' (p : Char → Bool) (l : List Char) :
    (l.dropWhile p).length ≤ l.length :=
  (List.dropWhile_sublist p (l := l)).length_le

theorem dropLastSpaceWord_length_le (l : List Char) :
    (dropLastSpaceWord l).length ≤ l.length := by
  unfold dropLastSpaceWord
  split_ifs
  · calc ((l.reverse.dropWhile (fun c => ¬ (c = ' '))).drop 1).reverse.length
        = ((l.reverse.dropWhile (fun c => ¬ (c = ' '))).drop 1).length := by
          simp
      _ ≤ (l.reverse.dropWhile (fun c => ¬ (c = ' '))).length :=
          (List.drop_sublist 1 _).length_le
      _ ≤ l.reverse.length := length_dropWhile_le' _ _
      _ = l.length := by simp
  · exact le_refl _

/-- Length bound and final-character shape of `ensure_ending`. -/
theorem ensure_ending_bounds (s : String) :
    (CleanText.ensure_ending s).length ≤ s.length + 1
    ∧ (CleanText.endsTerminal (CleanText.ensure_ending s).data = true
       ∨ matchDoDontCT (CleanText.ensure_ending s).data = true
       ∨ (CleanText.ensure_ending s).length < 3
       ∨ 200 ≤ (CleanText.ensure_ending s).length) := by
  unfold CleanText.ensure_ending
  dsimp only
  have hstrip : (pyStripL s.data).length ≤ s.length :=
    pyStripL_length_le s.data
  split_ifs with h0 h1 h2 h3 h4
  · refine ⟨Nat.le_succ _, ?_⟩
    right; right; left
    rcases Bool.or_eq_true_iff.mp h0 with h | h
    · have : s = "" := by simpa using h
      subst this
      decide
    · simpa using h
  · exact ⟨le_trans hstrip (Nat.le_succ _), Or.inr (Or.inl h1)⟩
  · refine ⟨le_trans hstrip (Nat.le_succ _), ?_⟩
    right; right; left
    have : pyStripL s.data = [] := List.isEmpty_iff.mp h2
    show (pyStripL s.data).length < 3
    simp [this]
  · exact ⟨le_trans hstrip (Nat.le_succ _), Or.inl h3⟩
  · refine ⟨le_trans hstrip (Nat.le_succ _), ?_⟩
    rcases Bool.or_eq_true_iff.mp h4 with h | h
    · right; right; right
      simpa using h
    · exact Or.inl (endsTerminal_of_endsWith_dots h)
  · refine ⟨?_, Or.inl (endsTerminal_concat_dot _)⟩
    show (pyStripL s.data ++ ['.']).length ≤ s.length + 1
    simp only [List.length_append, List.length_cons, List.length_nil]
    omega

end SandiBot

set_option maxRecDepth 40000 in
/-- C5 (counterexample): `clean_evidence_snippet` can exceed `max_len` —
for `("Abcd", 4)` it returns the 5-character `"Abcd."` — and a 200-character
cleaned snippet is returned without terminal punctuation even though it is
neither truncated nor a Do/Don't line. -/
theorem c5_clean_evidence_snippet_violates_bounds :
    SandiBot.CleanText.clean_evidence_snippet "Abcd" 4 = "Abcd."
    ∧ 4 < (SandiBot.CleanText.clean_evidence_snippet "Abcd" 4).length
    ∧ (SandiBot.CleanText.clean_evidence_snippet
        ⟨'A' :: List.replicate 199 'b'⟩ 200 = ⟨'A' :: List.replicate 199 'b'⟩
       ∧ SandiBot.CleanText.endsTerminal
          (SandiBot.CleanText.clean_evidence_snippet
            ⟨'A' :: List.replicate 199 'b'⟩ 200).data = false
       ∧ matchDoDontCT
          (SandiBot.CleanText.clean_evidence_snippet
            ⟨'A' :: List.replicate 199 'b'⟩ 200).data = false
       ∧ endsWithL ['.', '.', '.']
          (SandiBot.CleanText.clean_evidence_snippet
            ⟨'A' :: List.replicate 199 'b'⟩ 200).data = false) := by
  exact ⟨by decide, by decide, by decide, by decide, by decide, by decide⟩

/-- C5 (amended): for `max_len > 3`, `clean_evidence_snippet` returns at
most `max_len + 1` characters (the extra character is the appended period);
when the cleaned text exceeds `max_len` the result is at most `max_len`
characters and ends with `"..."` (truncation happens at the last space of
the prefix when one exists); and the result ends in terminal punctuation
unless it is a Do/Don't line, shorter than 3 characters, or at least 200
characters long (`ensure_ending`'s fixed cap). -/
theorem c5_clean_evidence_snippet_bounds (s : String) (maxLen : Nat)
    (hm : 3 < maxLen) :
    (SandiBot.CleanText.clean_evidence_snippet s maxLen).length ≤ maxLen + 1
    ∧ (maxLen < (SandiBot.CleanText.normalize_whitespace
          (SandiBot.CleanText.strip_section_lead_in s)).length →
        (SandiBot.CleanText.clean_evidence_snippet s maxLen).length ≤ maxLen
        ∧ endsWithL ['.', '.', '.']
            (SandiBot.CleanText.clean_evidence_snippet s maxLen).data = true)
    ∧ (SandiBot.CleanText.endsTerminal
          (SandiBot.CleanText.clean_evidence_snippet s maxLen).data = true
       ∨ matchDoDontCT
          (SandiBot.CleanText.clean_evidence_snippet s maxLen).data = true
       ∨ (SandiBot.CleanText.clean_evidence_snippet s maxLen).length < 3
       ∨ 200 ≤ (SandiBot.CleanText.clean_evidence_snippet s maxLen).length) := by
  unfold SandiBot.CleanText.clean_evidence_snippet
  by_cases h0 : s = ""
  · subst h0
    rw [if_pos rfl]
    refine ⟨by simp, ?_, ?_⟩
    · intro h
      have : (SandiBot.CleanText.normalize_whitespace
          (SandiBot.CleanText.strip_section_lead_in "")).length = 0 := by decide
      omega
    · right; right; left
      decide
  · rw [if_neg h0]
    dsimp only
    by_cases htr : maxLen <
        (SandiBot.CleanText.normalize_whitespace
          (SandiBot.CleanText.strip_section_lead_in s)).data.length
    · rw [if_pos htr, if_pos hm, SandiBot.ensure_ending_append_dots]
      have hq : ((SandiBot.dropLastSpaceWord
          ((SandiBot.CleanText.normalize_whitespace
            (SandiBot.CleanText.strip_section_lead_in s)).data.take
              (maxLen - 3))).dropWhile SandiBot.pyIsSpace).length
            ≤ maxLen - 3 := by
        calc _ ≤ (SandiBot.dropLastSpaceWord
            ((SandiBot.CleanText.normalize_whitespace
              (SandiBot.CleanText.strip_section_lead_in s)).data.take
                (maxLen - 3))).length := SandiBot.length_dropWhile_le' _ _
          _ ≤ ((SandiBot.CleanText.normalize_whitespace
              (SandiBot.CleanText.strip_section_lead_in s)).data.take
                (maxLen - 3)).length := SandiBot.dropLastSpaceWord_length_le _
          _ ≤ maxLen - 3 := List.length_take_le _ _
      have hlen : (String.mk (((SandiBot.dropLastSpaceWord
          ((SandiBot.CleanText.normalize_whitespace
            (SandiBot.CleanText.strip_section_lead_in s)).data.take
              (maxLen - 3))).dropWhile SandiBot.pyIsSpace)
            ++ ['.', '.', '.'])).length ≤ maxLen := by
        show (_ ++ ['.', '.', '.']).length ≤ maxLen
        simp only [List.length_append, List.length_cons, List.length_nil]
        omega
      refine ⟨le_trans hlen (Nat.le_succ _), fun _ => ⟨hlen, ?_⟩, ?_⟩
      · exact SandiBot.endsWithL_append_self _ _
      · exact Or.inl (SandiBot.endsTerminal_append_dots _)
    · rw [if_neg htr]
      have heta : (String.mk (SandiBot.CleanText.normalize_whitespace
          (SandiBot.CleanText.strip_section_lead_in s)).data)
          = SandiBot.CleanText.normalize_whitespace
              (SandiBot.CleanText.strip_section_lead_in s) := rfl
      rw [heta]
      have hb := SandiBot.ensure_ending_bounds
        (SandiBot.CleanText.normalize_whitespace
          (SandiBot.CleanText.strip_section_lead_in s))
      refine ⟨?_, fun h => absurd h htr, hb.2⟩
      have : (SandiBot.CleanText.normalize_whitespace
          (SandiBot.CleanText.strip_section_lead_in s)).length ≤ maxLen := by
        exact Nat.le_of_not_lt htr
      omega

/-- C5 witness: the amended bounds at `("Hello world friend", 10)` — the
result is the 8-character `"Hello..."`. -/
theorem c5_clean_evidence_snippet_bounds_witness :
    (SandiBot.CleanText.clean_evidence_snippet "Hello world friend" 10).length ≤ 11 :=
  (c5_clean_evidence_snippet_bounds "Hello world friend" 10 (by decide)).1

namespace SandiBot

theorem foldl_inv {α β : Type} (P : β → Prop) (f : β → α → β)
    (h : ∀ b a, P b → P (f b a)) :
    ∀ (l : List α) (b : β), P b → P (l.foldl f b) := by
  intro l
  induction l with
  | nil => intro b hb; exact hb
  | cons x xs ih => intro b hb; exact ih (f b x) (h b x hb)

/-- Evidence-cap invariant of the dict update in the Signal Normalizer. -/
theorem updateSignal_preserves (tag : String) (f : Signals.Signal → Signals.Signal)
    (init : Signals.Signal)
    (hf : ∀ sig, sig.evidence.length ≤ 2 → (f sig).evidence.length ≤ 2)
    (hinit : (f init).evidence.length ≤ 2) :
    ∀ (res : List (String × Signals.Signal)),
      (∀ p ∈ res, p.2.evidence.length ≤ 2) →
      ∀ p ∈ Signals.updateSignal tag f init res, p.2.evidence.length ≤ 2 := by
  intro res
  induction res with
  | nil =>
    intro _ p hp
    simp only [Signals.updateSignal, List.mem_singleton] at hp
    subst hp
    exact hinit
  | cons kv rest ih =>
    intro hres p hp
    simp only [Signals.updateSignal] at hp
    by_cases hk : kv.1 = tag
    · rw [if_pos hk] at hp
      rcases List.mem_cons.mp hp with h | h
      · subst h
        exact hf kv.2 (hres kv (List.mem_cons_self kv rest))
      · exact hres p (List.mem_cons_of_mem kv h)
    · rw [if_neg hk] at hp
      rcases List.mem_cons.mp hp with h | h
      · subst h
        exact hres kv (List.mem_cons_self kv rest)
      · exact ih (fun q hq => hres q (List.mem_cons_of_mem kv hq)) p h

end SandiBot

/-- C9: every signal produced by `normalize_facts_to_signals` carries at
most 2 evidence entries, and every context pack built by
`build_context_pack` holds at most 12 facts in `traits`, `drivers` and
`risks` together. -/
theorem c9_evidence_and_fact_caps :
    (∀ (facts : List SandiBot.Signals.SigFact) (tag : String)
        (sig : SandiBot.Signals.Signal),
      (tag, sig) ∈ SandiBot.Signals.normalize_facts_to_signals facts →
      sig.evidence.length ≤ SandiBot.Signals.MAX_EVIDENCE_PER_SIGNAL)
    ∧ (∀ (G : SandiBot.BuildGraph.Graph) (clientName : String),
      SandiBot.ContextPack.count_facts_in_pack
        (SandiBot.ContextPack.build_context_pack G clientName)
        ≤ SandiBot.ContextPack.MAX_FACTS_TOTAL) := by
  constructor
  · intro facts tag sig hmem
    have main : ∀ p ∈ SandiBot.Signals.normalize_facts_to_signals facts,
        (Prod.snd p).evidence.length ≤ 2 := by
      unfold SandiBot.Signals.normalize_facts_to_signals
      refine SandiBot.foldl_inv
        (fun (res : List (String × SandiBot.Signals.Signal)) =>
          ∀ p ∈ res, (Prod.snd p).evidence.length ≤ 2) _ ?_ facts []
        (by intro p hp; cases hp)
      intro res fact hres
      dsimp only
      refine SandiBot.foldl_inv
        (fun (res : List (String × SandiBot.Signals.Signal)) =>
          ∀ p ∈ res, (Prod.snd p).evidence.length ≤ 2) _ ?_ _ res hres
      intro res2 t hres2
      refine SandiBot.updateSignal_preserves t _ _ ?_ ?_ res2 hres2
      · intro s hs
        dsimp only
        split
        · split_ifs with hlt
          · simp only [SandiBot.Signals.MAX_EVIDENCE_PER_SIGNAL] at hlt
            simp only [List.length_append, List.length_cons, List.length_nil]
            omega
          · exact hs
        · exact hs
      · dsimp only
        split
        · split_ifs with hlt
          · simp
          · simp
        · simp
    exact main (tag, sig) hmem
  · intro G clientName
    unfold SandiBot.ContextPack.build_context_pack
      SandiBot.ContextPack.count_facts_in_pack
    rcases hT : SandiBot.BuildGraph.get_client_traits_drivers_risks G clientName
      with ⟨T, D, R⟩
    dsimp only
    have h12 : SandiBot.ContextPack.MAX_FACTS_TOTAL = 12 := rfl
    split_ifs with h1 h2
    all_goals
      try simp only [List.length_take, List.length_map, List.length_nil, h12] at *
    all_goals omega

/-- C9 witness: a one-fact normalization and the empty graph's pack. -/
theorem c9_evidence_and_fact_caps_witness :
    (⟨0 + 1, [(some 1, "Works well with teams every day.")]⟩ :
        SandiBot.Signals.Signal).evidence.length
      ≤ SandiBot.Signals.MAX_EVIDENCE_PER_SIGNAL
    ∧ SandiBot.ContextPack.count_facts_in_pack
        (SandiBot.ContextPack.build_context_pack SandiBot.BuildGraph.Graph.empty
          "Jane Doe") ≤ SandiBot.ContextPack.MAX_FACTS_TOTAL :=
  ⟨c9_evidence_and_fact_caps.1
      [⟨"Team player", "trait", .dict (some 1) "Works well with teams every day."⟩]
      "People-oriented" ⟨0 + 1, [(some 1, "Works well with teams every day.")]⟩
      (by
        have h : SandiBot.Signals.normalize_facts_to_signals
            [⟨"Team player", "trait",
              .dict (some 1) "Works well with teams every day."⟩]
            = [("People-oriented",
                ⟨0 + 1, [(some 1, "Works well with teams every day.")]⟩)] := by rfl
        rw [h]
        exact List.mem_singleton_self _),
   c9_evidence_and_fact_caps.2 SandiBot.BuildGraph.Graph.empty "Jane Doe"⟩

namespace SandiBot.FitScoring

theorem mem_insertStable {α : Type} {lt : α → α → Bool} {z x : α} :
    ∀ {l : List α}, z ∈ insertStable lt x l → z = x ∨ z ∈ l := by
  intro l
  induction l with
  | nil =>
    intro h
    simp only [insertStable, List.mem_singleton] at h
    exact Or.inl h
  | cons y ys ih =>
    intro h
    simp only [insertStable] at h
    split_ifs at h with hlt
    · rcases List.mem_cons.mp h with h | h
      · exact Or.inr (h ▸ List.mem_cons_self y ys)
      · rcases ih h with h | h
        · exact Or.inl h
        · exact Or.inr (List.mem_cons_of_mem y h)
    · rcases List.mem_cons.mp h with h | h
      · exact Or.inl h
      · exact Or.inr h

theorem mem_stableSort {α : Type} {lt : α → α → Bool} {z : α} :
    ∀ {l : List α}, z ∈ stableSort lt l → z ∈ l := by
  intro l
  induction l with
  | nil => intro h; cases h
  | cons x xs ih =>
    intro h
    rcases mem_insertStable h with h | h
    · exact h ▸ List.mem_cons_self x xs
    · exact List.mem_cons_of_mem x (ih h)

theorem pairwise_insertStable {α : Type} (lt : α → α → Bool) (R : α → α → Prop)
    (htrans : ∀ a b c, R a b → R b c → R a c)
    (h1 : ∀ a b, lt a b = true → R a b) (h2 : ∀ a b, lt a b = false → R b a)
    (x : α) :
    ∀ (l : List α), List.Pairwise R l → List.Pairwise R (insertStable lt x l) := by
  intro l
  induction l with
  | nil => intro _; exact List.pairwise_singleton R x
  | cons y ys ih =>
    intro hp
    rcases List.pairwise_cons.mp hp with ⟨hy, hys⟩
    simp only [insertStable]
    split_ifs with hlt
    · refine List.pairwise_cons.mpr ⟨?_, ih hys⟩
      intro z hz
      rcases mem_insertStable hz with h | h
      · exact h ▸ h1 y x hlt
      · exact hy z h
    · refine List.pairwise_cons.mpr ⟨?_, hp⟩
      intro z hz
      rcases List.mem_cons.mp hz with h | h
      · exact h ▸ h2 y x (Bool.eq_false_iff.mpr hlt)
      · exact htrans _ _ _ (h2 y x (Bool.eq_false_iff.mpr hlt)) (hy z h)

theorem pairwise_stableSort {α : Type} (lt : α → α → Bool) (R : α → α → Prop)
    (htrans : ∀ a b c, R a b → R b c → R a c)
    (h1 : ∀ a b, lt a b = true → R a b) (h2 : ∀ a b, lt a b = false → R b a) :
    ∀ (l : List α), List.Pairwise R (stableSort lt l) := by
  intro l
  induction l with
  | nil => exact List.Pairwise.nil
  | cons x xs ih => exact pairwise_insertStable lt R htrans h1 h2 x _ ih

end SandiBot.FitScoring

/-- Round-half-even at two decimals fixes the scenario value 6. -/
theorem pyRound2_six : SandiBot.FitScoring.pyRound2 6 = 6 := by
  unfold SandiBot.FitScoring.pyRound2
  norm_num

/-- C7: every row returned by `score_archetypes` carries the score
`round₂(Σ(signal.score × requires_weight) − Σ(signal.score × avoid_weight))`
of some input archetype, the rows are ranked by descending score, and the
spec scenario (signal `Autonomy-seeking` at 3.0 against requires-weight 2)
scores exactly 6.0. -/
theorem c7_score_archetypes_formula_and_ranking :
    (∀ (signals : List (String × SandiBot.Signals.Signal))
        (archetypes : List SandiBot.FitScoring.Archetype) (topN : Nat)
        (e : SandiBot.FitScoring.ScoredArch),
      e ∈ SandiBot.FitScoring.score_archetypes signals archetypes topN →
      ∃ a ∈ archetypes, e.name = a.name
        ∧ e.score = SandiBot.FitScoring.pyRound2
            (SandiBot.FitScoring.requiresSum signals a
              - SandiBot.FitScoring.avoidSum signals a))
    ∧ (∀ (signals : List (String × SandiBot.Signals.Signal))
        (archetypes : List SandiBot.FitScoring.Archetype) (topN : Nat),
      List.Pairwise
        (fun (a b : SandiBot.FitScoring.ScoredArch) => b.score ≤ a.score)
        (SandiBot.FitScoring.score_archetypes signals archetypes topN))
    ∧ (SandiBot.FitScoring.score_archetypes SandiBot.FitScoring.demoSignals
        [SandiBot.FitScoring.demoArchetype] 5).map
          SandiBot.FitScoring.ScoredArch.score = [6] := by
  refine ⟨?_, ?_, ?_⟩
  · intro signals archetypes topN e hmem
    unfold SandiBot.FitScoring.score_archetypes at hmem
    have hmem2 := SandiBot.FitScoring.mem_stableSort
      ((List.take_sublist _ _).subset hmem)
    rcases List.mem_map.mp hmem2 with ⟨a, ha, rfl⟩
    refine ⟨a, ha, rfl, ?_⟩
    show SandiBot.FitScoring.pyRound2 _ = _
    congr 1
    unfold SandiBot.FitScoring.requiresSum SandiBot.FitScoring.avoidSum
    dsimp only
    simp only [List.map_map]
    rfl
  · intro signals archetypes topN
    unfold SandiBot.FitScoring.score_archetypes
    refine List.Pairwise.sublist (List.take_sublist _ _) ?_
    exact SandiBot.FitScoring.pairwise_stableSort
      (fun (a b : SandiBot.FitScoring.ScoredArch) => decide (a.score > b.score))
      (fun a b => b.score ≤ a.score)
      (fun a b c hab hbc => le_trans hbc hab)
      (fun a b h => le_of_lt (of_decide_eq_true h))
      (fun a b h => not_lt.mp (of_decide_eq_false h))
      _
  · unfold SandiBot.FitScoring.score_archetypes SandiBot.FitScoring.demoSignals
      SandiBot.FitScoring.demoArchetype
    simp [SandiBot.FitScoring.stableSort, SandiBot.FitScoring.insertStable,
      SandiBot.FitScoring.sigScore,
      show (3 : ℚ) * 2 = 6 by norm_num, pyRound2_six]

/-- C7 witness: the formula part applied to the scenario instance. -/
theorem c7_score_archetypes_formula_and_ranking_witness :
    ∃ a ∈ [SandiBot.FitScoring.demoArchetype],
      ((SandiBot.FitScoring.score_archetypes SandiBot.FitScoring.demoSignals
          [SandiBot.FitScoring.demoArchetype] 5).headD
            ⟨"", "", 0, "", [], [], []⟩).name = a.name
      ∧ ((SandiBot.FitScoring.score_archetypes SandiBot.FitScoring.demoSignals
          [SandiBot.FitScoring.demoArchetype] 5).headD
            ⟨"", "", 0, "", [], [], []⟩).score
         = SandiBot.FitScoring.pyRound2
            (SandiBot.FitScoring.requiresSum SandiBot.FitScoring.demoSignals a
              - SandiBot.FitScoring.avoidSum SandiBot.FitScoring.demoSignals a) := by
  rcases hl : SandiBot.FitScoring.score_archetypes SandiBot.FitScoring.demoSignals
      [SandiBot.FitScoring.demoArchetype] 5 with _ | ⟨x, xs⟩
  · have h := c7_score_archetypes_formula_and_ranking.2.2
    rw [hl] at h
    simp at h
  · have hm : x ∈ SandiBot.FitScoring.score_archetypes
        SandiBot.FitScoring.demoSignals [SandiBot.FitScoring.demoArchetype] 5 := by
      rw [hl]
      exact List.mem_cons_self x xs
    have h := c7_score_archetypes_formula_and_ranking.1
      SandiBot.FitScoring.demoSignals [SandiBot.FitScoring.demoArchetype] 5 x hm
    simpa [hl] using h

namespace SandiBot.BuildGraph

theorem Graph.addNode_edges (G : Graph) (nid : String) (a : NodeAttrs) :
    (G.addNode nid a).edges = G.edges := by
  unfold Graph.addNode
  split <;> rfl

theorem Graph.addEdge_edges (G : Graph) (k : EdgeKey) (a : EdgeAttrs) :
    (G.addEdge k a).edges =
      if G.hasEdge k then G.edges.map (fun p => if p.1 = k then (k, a) else p)
      else G.edges ++ [(k, a)] := by
  unfold Graph.addEdge
  split <;> simp_all

theorem document_id_injective {d1 d2 : String}
    (h : SandiBot.Ontology.document_id d1 = SandiBot.Ontology.document_id d2) :
    d1 = d2 := by
  unfold SandiBot.Ontology.document_id at h
  have hd := congrArg String.data h
  simp only [String.data_append] at hd
  have h2 := List.append_cancel_left hd
  cases d1
  cases d2
  exact congrArg String.mk h2

end SandiBot.BuildGraph

/-- C4 (counterexample): merging two `trait` facts with the same label but
distinct doc ids leaves a single `has_trait` edge (keyed by the fixed
relation key, so the second merge overwrites the first), carrying only the
second document's provenance — not two parallel edges. -/
theorem c4_same_label_two_docs_single_edge :
    ((SandiBot.BuildGraph.merge_facts_into_graph
        (SandiBot.BuildGraph.merge_facts_into_graph SandiBot.BuildGraph.Graph.empty
          ⟨"Jane Doe", "d1", [⟨"trait", "Collaborative spirit", 1, "snippetA", none⟩]⟩)
        ⟨"Jane Doe", "d2", [⟨"trait", "Collaborative spirit", 2, "snippetB", none⟩]⟩).edges.filter
      (fun p => p.1.key = "has_trait")).length = 1
    ∧ ((SandiBot.BuildGraph.merge_facts_into_graph
        (SandiBot.BuildGraph.merge_facts_into_graph SandiBot.BuildGraph.Graph.empty
          ⟨"Jane Doe", "d1", [⟨"trait", "Collaborative spirit", 1, "snippetA", none⟩]⟩)
        ⟨"Jane Doe", "d2", [⟨"trait", "Collaborative spirit", 2, "snippetB", none⟩]⟩).edges.map
      (fun p => (p.1.key, p.2.doc_id)))
      = [("has_trait", "d2"), ("evidence_from", "d1"), ("evidence_from", "d2")]
    ∧ (SandiBot.BuildGraph.merge_facts_into_graph
        (SandiBot.BuildGraph.merge_facts_into_graph SandiBot.BuildGraph.Graph.empty
          ⟨"Jane Doe", "d1", [⟨"trait", "Collaborative spirit", 1, "snippetA", none⟩]⟩)
        ⟨"Jane Doe", "d2", [⟨"trait", "Collaborative spirit", 2, "snippetB", none⟩]⟩).edgeCount
      = 3 := by
  refine ⟨by rfl, by rfl, by rfl⟩

/-- C4 (amended): after merging two same-label `trait` facts from distinct
documents, exactly one `has_trait` edge remains, holding the provenance
(doc id, page, snippet) of the most recently merged fact; the two documents
survive as two distinct `evidence_from` edges. -/
theorem c4_has_trait_edge_upserted (name label d1 d2 s1 s2 : String)
    (p1 p2 : Nat) (hd : d1 ≠ d2) :
    ((SandiBot.BuildGraph.merge_facts_into_graph
        (SandiBot.BuildGraph.merge_facts_into_graph SandiBot.BuildGraph.Graph.empty
          ⟨name, d1, [⟨"trait", label, p1, s1, none⟩]⟩)
        ⟨name, d2, [⟨"trait", label, p2, s2, none⟩]⟩).edges.map
      (fun p => (p.1.key, p.2.doc_id, p.2.page)))
      = [("has_trait", d2, p2), ("evidence_from", d1, p1), ("evidence_from", d2, p2)]
    ∧ ((SandiBot.BuildGraph.merge_facts_into_graph
        (SandiBot.BuildGraph.merge_facts_into_graph SandiBot.BuildGraph.Graph.empty
          ⟨name, d1, [⟨"trait", label, p1, s1, none⟩]⟩)
        ⟨name, d2, [⟨"trait", label, p2, s2, none⟩]⟩).edges.filter
      (fun p => p.1.key = "has_trait")).length = 1 := by
  have hne : ¬ (SandiBot.Ontology.document_id d1 = SandiBot.Ontology.document_id d2) :=
    fun h => hd (SandiBot.BuildGraph.document_id_injective h)
  constructor
  · simp +decide [SandiBot.BuildGraph.merge_facts_into_graph,
      SandiBot.BuildGraph.addFactToGraph, SandiBot.BuildGraph.Graph.addEdge_edges,
      SandiBot.BuildGraph.Graph.addNode_edges, SandiBot.BuildGraph.Graph.hasEdge,
      SandiBot.BuildGraph.Graph.empty, SandiBot.BuildGraph.EdgeKey.mk.injEq, hne]
  · simp +decide [SandiBot.BuildGraph.merge_facts_into_graph,
      SandiBot.BuildGraph.addFactToGraph, SandiBot.BuildGraph.Graph.addEdge_edges,
      SandiBot.BuildGraph.Graph.addNode_edges, SandiBot.BuildGraph.Graph.hasEdge,
      SandiBot.BuildGraph.Graph.empty, SandiBot.BuildGraph.EdgeKey.mk.injEq, hne]

/-- C4 witness: the amended theorem at the concrete scenario. -/
theorem c4_has_trait_edge_upserted_witness :
    ((SandiBot.BuildGraph.merge_facts_into_graph
        (SandiBot.BuildGraph.merge_facts_into_graph SandiBot.BuildGraph.Graph.empty
          ⟨"Jane Doe", "d1", [⟨"trait", "Collaborative spirit", 1, "snippetA", none⟩]⟩)
        ⟨"Jane Doe", "d2", [⟨"trait", "Collaborative spirit", 2, "snippetB", none⟩]⟩).edges.filter
      (fun p => p.1.key = "has_trait")).length = 1 :=
  (c4_has_trait_edge_upserted "Jane Doe" "Collaborative spirit" "d1" "d2"
    "snippetA" "snippetB" 1 2 (by decide)).2

namespace SandiBot.BuildGraph

theorem Graph.addEdge_nodeCount (G : Graph) (k : EdgeKey) (a : EdgeAttrs) :
    (G.addEdge k a).nodeCount = G.nodeCount := by
  unfold Graph.addEdge Graph.nodeCount
  split <;> rfl

theorem Graph.addNode_nodeCount_le (G : Graph) (nid : String) (a : NodeAttrs) :
    G.nodeCount ≤ (G.addNode nid a).nodeCount := by
  unfold Graph.addNode Graph.nodeCount
  split <;> simp

theorem Graph.addNode_nodeCount_pos (G : Graph) (nid : String) (a : NodeAttrs) :
    1 ≤ (G.addNode nid a).nodeCount := by
  unfold Graph.addNode Graph.nodeCount Graph.hasNode
  split_ifs with h
  · rcases List.any_eq_true.mp h with ⟨p, hp, _⟩
    simp only [List.length_map]
    exact List.length_pos.mpr (List.ne_nil_of_mem hp)
  · simp

theorem Graph.hasNode_addNode_self (G : Graph) (nid : String) (a : NodeAttrs) :
    (G.addNode nid a).hasNode nid = true := by
  unfold Graph.addNode Graph.hasNode
  split_ifs with h
  · rcases List.any_eq_true.mp h with ⟨p, hp, hpk⟩
    refine List.any_eq_true.mpr ⟨(nid, a), ?_, by simp⟩
    refine List.mem_map.mpr ⟨p, hp, ?_⟩
    simp only [of_decide_eq_true hpk]
    simp
  · refine List.any_eq_true.mpr ⟨(nid, a), ?_, by simp⟩
    simp

theorem Graph.hasNode_addNode_mono (G : Graph) (nid m : String) (a : NodeAttrs)
    (h : G.hasNode m = true) : (G.addNode nid a).hasNode m = true := by
  unfold Graph.addNode
  split_ifs with hh
  · rcases List.any_eq_true.mp h with ⟨p, hp, hpk⟩
    by_cases hpn : p.1 = nid
    · have : m = nid := by rw [← of_decide_eq_true hpk, hpn]
      subst this
      exact Graph.hasNode_addNode_self G m a ▸ (by
        unfold Graph.addNode
        rw [if_pos hh])
    · refine List.any_eq_true.mpr ⟨p, ?_, hpk⟩
      refine List.mem_map.mpr ⟨p, hp, ?_⟩
      simp [hpn]
  · unfold Graph.hasNode at h ⊢
    simp only [List.any_append, h, Bool.true_or]

theorem Graph.addNode_nodeCount_of_hasNode (G : Graph) (nid : String)
    (a : NodeAttrs) (h : G.hasNode nid = true) :
    (G.addNode nid a).nodeCount = G.nodeCount := by
  unfold Graph.addNode Graph.nodeCount
  rw [if_pos h]
  simp

theorem Graph.addEdge_edgeCount_nodes (G : Graph) (k : EdgeKey) (a : EdgeAttrs) :
    (G.addEdge k a).nodes = G.nodes := by
  unfold Graph.addEdge
  split <;> rfl

theorem addFact_nodeCount_le (G : Graph) (cn d : String) (f : SandiBot.ExtractPdf.Fact)
    (conf : ℚ) : G.nodeCount ≤ (addFactToGraph G cn d f conf).nodeCount := by
  unfold addFactToGraph
  dsimp only
  split_ifs <;>
    simp only [Graph.addEdge_nodeCount] <;>
    first
      | exact le_trans (Graph.addNode_nodeCount_le _ _ _)
          (le_trans (Graph.addNode_nodeCount_le _ _ _)
            (Graph.addNode_nodeCount_le _ _ _))
      | exact le_trans (Graph.addNode_nodeCount_le _ _ _)
          (Graph.addNode_nodeCount_le _ _ _)

theorem merge_nodeCount_pos (G : Graph) (ex : Extraction) (conf : ℚ) :
    1 ≤ (merge_facts_into_graph G ex conf).nodeCount := by
  unfold merge_facts_into_graph
  dsimp only
  refine SandiBot.foldl_inv (fun (H : Graph) => 1 ≤ H.nodeCount) _ ?_ _ _ ?_
  · intro H f hH
    exact le_trans hH (addFact_nodeCount_le H ex.client_name ex.doc_id f conf)
  · exact Graph.addNode_nodeCount_pos _ _ _

end SandiBot.BuildGraph

namespace SandiBot.PageUI

open SandiBot.Storage SandiBot.BuildGraph

theorem alreadyBranch_factsLog (st : St) :
    (alreadyBranch st).factsLog = st.factsLog := by
  unfold alreadyBranch
  dsimp only
  split <;> rfl

theorem alreadyBranch_index (st : St) :
    (alreadyBranch st).index = st.index := by
  unfold alreadyBranch
  dsimp only
  split <;> rfl

theorem alreadyBranch_set_index (st : St) (i : Index) :
    alreadyBranch { st with index := i } = { alreadyBranch st with index := i } := by
  unfold alreadyBranch
  dsimp only
  split <;> rfl

theorem load_graph_rebuild (log : List FactRow) :
    load_graph (rebuild_graph_from_facts log) log = rebuild_graph_from_facts log := by
  unfold load_graph
  split <;> rfl

theorem alreadyBranch_of_graph_rebuild (st : St)
    (h : st.graph = rebuild_graph_from_facts st.factsLog) :
    alreadyBranch st = st := by
  unfold alreadyBranch
  dsimp only
  rw [h, load_graph_rebuild]
  split_ifs with hc
  · cases st
    simp_all
  · rfl

theorem alreadyBranch_idem (st : St) :
    alreadyBranch (alreadyBranch st) = alreadyBranch st := by
  by_cases hc : ((load_graph st.graph st.factsLog).nodeCount = 0
      && ¬ st.factsLog.isEmpty) = true
  · have h1 : alreadyBranch st = { st with graph := rebuild_graph_from_facts st.factsLog } := by
      unfold alreadyBranch
      rw [if_pos hc]
    rw [h1]
    exact alreadyBranch_of_graph_rebuild _ rfl
  · have h1 : alreadyBranch st = st := by
      unfold alreadyBranch
      rw [if_neg hc]
    rw [h1, h1]

theorem alreadyBranch_of_nodeCount_pos (st : St)
    (h : 1 ≤ st.graph.nodeCount) : alreadyBranch st = st := by
  unfold alreadyBranch
  have hload : load_graph st.graph st.factsLog = st.graph := by
    unfold load_graph
    rw [if_neg]
    simp only [Bool.and_eq_true, decide_eq_true_eq, not_and]
    intro h0
    omega
  rw [hload]
  rw [if_neg]
  simp only [Bool.and_eq_true, decide_eq_true_eq, not_and]
  intro h0
  omega

theorem register_self_mem (idx : Index) (slug docId : String) :
    docId ∈ register_processed_doc idx slug docId slug := by
  unfold register_processed_doc
  rw [if_pos rfl]
  split_ifs with h
  · exact h
  · exact List.mem_append_right _ (List.mem_singleton_self _)

theorem register_other (idx : Index) (slug docId s : String) (h : ¬ s = slug) :
    register_processed_doc idx slug docId s = idx s := by
  unfold register_processed_doc
  rw [if_neg h]

end SandiBot.PageUI

namespace SandiBot.PageUI

open SandiBot.Storage SandiBot.BuildGraph SandiBot.ExtractPdf

theorem process_rejected (st : St) (name docId : String) (e : ExtractResult)
    (h : pyStrip name = "") :
    processDocument st name docId e = (st, .rejected) := by
  unfold processDocument
  rw [if_pos h]

theorem process_index (st : St) (name docId : String) (e : ExtractResult)
    (h0 : ¬ pyStrip name = "")
    (h1 : client_has_doc_id st.index (pyStrip name) docId = true) :
    processDocument st name docId e = (alreadyBranch st, .index) := by
  unfold processDocument
  rw [if_neg h0]
  dsimp only
  rw [if_pos h1]

theorem process_legacy (st : St) (name docId : String) (e : ExtractResult)
    (h0 : ¬ pyStrip name = "")
    (h1 : ¬ client_has_doc_id st.index (pyStrip name) docId = true)
    (h2 : ¬ (load_facts_for_client st.factsLog (pyStrip name) (some docId)).isEmpty
          = true) :
    processDocument st name docId e =
      (alreadyBranch { st with index :=
          register_processed_doc st.index (client_slug (pyStrip name)) docId },
       .legacyScan) := by
  unfold processDocument
  rw [if_neg h0]
  dsimp only
  rw [if_neg h1, if_pos (by simpa using h2)]

theorem process_failed (st : St) (name docId : String) (e : ExtractResult)
    (h0 : ¬ pyStrip name = "")
    (h1 : ¬ client_has_doc_id st.index (pyStrip name) docId = true)
    (h2 : (load_facts_for_client st.factsLog (pyStrip name) (some docId)).isEmpty
          = true)
    (h3 : e.extraction_status = "text_extraction_failed") :
    processDocument st name docId e = (st, .extractionFailed) := by
  unfold processDocument
  rw [if_neg h0]
  dsimp only
  rw [if_neg h1, if_neg (by simp [h2]), if_pos h3]

theorem process_reprocess (st : St) (name docId : String) (e : ExtractResult)
    (h0 : ¬ pyStrip name = "")
    (h1 : ¬ client_has_doc_id st.index (pyStrip name) docId = true)
    (h2 : (load_facts_for_client st.factsLog (pyStrip name) (some docId)).isEmpty
          = true)
    (h3 : ¬ e.extraction_status = "text_extraction_failed") :
    processDocument st name docId e =
      (reprocessedState st (pyStrip name) docId e, .reprocessed) := by
  unfold processDocument reprocessedState mkRows
  rw [if_neg h0]
  dsimp only
  rw [if_neg h1, if_neg (by simp [h2]), if_neg h3]

end SandiBot.PageUI

namespace SandiBot.BuildGraph

theorem Graph.addNode_edgeCount (G : Graph) (nid : String) (a : NodeAttrs) :
    (G.addNode nid a).edgeCount = G.edgeCount := by
  unfold Graph.edgeCount
  rw [Graph.addNode_edges]

theorem Graph.hasNode_addEdge (G : Graph) (k : EdgeKey) (a : EdgeAttrs)
    (m : String) : (G.addEdge k a).hasNode m = G.hasNode m := by
  unfold Graph.addEdge Graph.hasNode
  split <;> rfl

theorem addFact_hasNode_mono (G : Graph) (cn d : String)
    (f : SandiBot.ExtractPdf.Fact) (conf : ℚ) (m : String)
    (h : G.hasNode m = true) :
    (addFactToGraph G cn d f conf).hasNode m = true := by
  unfold addFactToGraph
  dsimp only
  split_ifs <;>
    simp only [Graph.hasNode_addEdge] <;>
    first
      | exact Graph.hasNode_addNode_mono _ _ _ _
          (Graph.hasNode_addNode_mono _ _ _ _ (Graph.hasNode_addNode_mono _ _ _ _ h))
      | exact Graph.hasNode_addNode_mono _ _ _ _ (Graph.hasNode_addNode_mono _ _ _ _ h)

theorem merge_hasNode (G : Graph) (ex : Extraction) (conf : ℚ) :
    (merge_facts_into_graph G ex conf).hasNode
        (SandiBot.Ontology.client_id ex.client_name) = true
    ∧ (merge_facts_into_graph G ex conf).hasNode
        (SandiBot.Ontology.document_id ex.doc_id) = true := by
  unfold merge_facts_into_graph
  dsimp only
  have base : ((G.addNode (SandiBot.Ontology.client_id ex.client_name)
        ⟨"client", ex.client_name⟩).addNode
        (SandiBot.Ontology.document_id ex.doc_id)
        ⟨"doc", ex.doc_id⟩).hasNode (SandiBot.Ontology.client_id ex.client_name) = true
      ∧ ((G.addNode (SandiBot.Ontology.client_id ex.client_name)
        ⟨"client", ex.client_name⟩).addNode
        (SandiBot.Ontology.document_id ex.doc_id)
        ⟨"doc", ex.doc_id⟩).hasNode (SandiBot.Ontology.document_id ex.doc_id) = true := by
    constructor
    · exact Graph.hasNode_addNode_mono _ _ _ _ (Graph.hasNode_addNode_self _ _ _)
    · exact Graph.hasNode_addNode_self _ _ _
  refine SandiBot.foldl_inv
    (fun (H : Graph) =>
      H.hasNode (SandiBot.Ontology.client_id ex.client_name) = true
      ∧ H.hasNode (SandiBot.Ontology.document_id ex.doc_id) = true) _ ?_ _ _ base
  intro H f hH
  exact ⟨addFact_hasNode_mono H ex.client_name ex.doc_id f conf _ hH.1,
         addFact_hasNode_mono H ex.client_name ex.doc_id f conf _ hH.2⟩

end SandiBot.BuildGraph

namespace SandiBot.PageUI

open SandiBot.Storage SandiBot.BuildGraph SandiBot.ExtractPdf

theorem client_has_doc_id_iff (idx : Index) (n d : String) :
    client_has_doc_id idx n d = true ↔ d ∈ idx (Storage.client_slug n) := by
  unfold Storage.client_has_doc_id
  simp

theorem load_facts_append (log rows : List FactRow) (c : String)
    (d : Option String) :
    load_facts_for_client (log ++ rows) c d
      = load_facts_for_client log c d ++ load_facts_for_client rows c d := by
  unfold Storage.load_facts_for_client
  exact List.filter_append _ _

theorem rowMatches_mkRow (current docId : String) (e : ExtractResult)
    (h0 : ¬ current = "") :
    ∀ row ∈ mkRows current docId e, rowMatches current (some docId) row = true := by
  intro row hrow
  rcases List.mem_map.mp hrow with ⟨f, _, rfl⟩
  unfold Storage.rowMatches
  dsimp only
  rw [if_neg h0]
  simp

theorem load_facts_mkRows (current docId : String) (e : ExtractResult)
    (h0 : ¬ current = "") :
    load_facts_for_client (mkRows current docId e) current (some docId)
      = mkRows current docId e := by
  unfold Storage.load_facts_for_client
  exact List.filter_eq_self.mpr (rowMatches_mkRow current docId e h0)

theorem mkRows_nil_iff (current docId : String) (e : ExtractResult) :
    mkRows current docId e = [] ↔ e.facts = [] := by
  unfold mkRows
  simp

end SandiBot.PageUI

/-- C1 (counterexample): for the client name `"???"` — whose slug is empty,
so `page_ui._client_slug` falls back to `"client"` while
`storage._client_slug` checks `"unknown"` — the second processing of
byte-identical content is NOT detected via the per-client index: it is
caught only by the legacy scan of the full fact log. -/
theorem c1_degenerate_name_not_detected_by_index :
    (SandiBot.PageUI.processDocument
      (SandiBot.PageUI.processDocument
        ⟨[], fun _ => [], SandiBot.BuildGraph.Graph.empty⟩ "???" "doc1"
        ⟨"???", "doc1",
         [⟨"trait", "Collaborative spirit", 1,
           "Collaborative spirit in all team settings.", none⟩],
         2000, 1, "ok", 0, 0, 0, 0, [("trait", 1)], none⟩).1
      "???" "doc1"
      ⟨"???", "doc1",
       [⟨"trait", "Collaborative spirit", 1,
         "Collaborative spirit in all team settings.", none⟩],
       2000, 1, "ok", 0, 0, 0, 0, [("trait", 1)], none⟩).2
      = SandiBot.PageUI.Detection.legacyScan
    ∧ SandiBot.PageUI.Detection.legacyScan ≠ SandiBot.PageUI.Detection.index := by
  exact ⟨by decide, by decide⟩

set_option maxHeartbeats 1000000 in
/-- C1 (amended): re-submitting byte-identical content for the same client
appends nothing to the fact store and leaves the graph's node and edge
counts unchanged, for every client name and prior state; and whenever the
client name has a nonempty slug (page_ui's and storage's slug functions
agree) and the content extracts, the second submission is detected via the
per-client index.  The `"???"`-style names above are the only exception to
the index-detection clause: there the duplicate is caught by the fact-log
scan or re-merged idempotently, still with zero net effect. -/
theorem c1_second_processing_is_noop (st : SandiBot.PageUI.St)
    (name docId : String) (e : SandiBot.ExtractPdf.ExtractResult) :
    ((SandiBot.PageUI.processDocument
        (SandiBot.PageUI.processDocument st name docId e).1 name docId e).1.factsLog
      = (SandiBot.PageUI.processDocument st name docId e).1.factsLog)
    ∧ ((SandiBot.PageUI.processDocument
        (SandiBot.PageUI.processDocument st name docId e).1 name docId e).1.graph.nodeCount
      = (SandiBot.PageUI.processDocument st name docId e).1.graph.nodeCount)
    ∧ ((SandiBot.PageUI.processDocument
        (SandiBot.PageUI.processDocument st name docId e).1 name docId e).1.graph.edgeCount
      = (SandiBot.PageUI.processDocument st name docId e).1.graph.edgeCount)
    ∧ (SandiBot.PageUI.client_slug (SandiBot.pyStrip name)
          = SandiBot.Storage.client_slug (SandiBot.pyStrip name) →
       ¬ e.extraction_status = "text_extraction_failed" →
       (SandiBot.PageUI.processDocument
          (SandiBot.PageUI.processDocument st name docId e).1 name docId e).2
        = SandiBot.PageUI.Detection.index) := by
  by_cases h0 : SandiBot.pyStrip name = ""
  · rw [SandiBot.PageUI.process_rejected st name docId e h0]
    dsimp only
    rw [SandiBot.PageUI.process_rejected st name docId e h0]
    refine ⟨rfl, rfl, rfl, ?_⟩
    intro H _
    rw [h0] at H
    exact absurd H (by decide)
  · by_cases h1 : SandiBot.Storage.client_has_doc_id st.index
        (SandiBot.pyStrip name) docId = true
    · have h1b : SandiBot.Storage.client_has_doc_id
          (SandiBot.PageUI.alreadyBranch st).index (SandiBot.pyStrip name) docId
            = true := by
        rw [SandiBot.PageUI.alreadyBranch_index]
        exact h1
      rw [SandiBot.PageUI.process_index st name docId e h0 h1]
      dsimp only
      rw [SandiBot.PageUI.process_index (SandiBot.PageUI.alreadyBranch st)
          name docId e h0 h1b,
        SandiBot.PageUI.alreadyBranch_idem]
      exact ⟨rfl, rfl, rfl, fun _ _ => rfl⟩
    · by_cases h2 : (SandiBot.Storage.load_facts_for_client st.factsLog
          (SandiBot.pyStrip name) (some docId)).isEmpty = true
      · by_cases h3 : e.extraction_status = "text_extraction_failed"
        · rw [SandiBot.PageUI.process_failed st name docId e h0 h1 h2 h3]
          dsimp only
          rw [SandiBot.PageUI.process_failed st name docId e h0 h1 h2 h3]
          exact ⟨rfl, rfl, rfl, fun _ hstat => absurd h3 hstat⟩
        · rw [SandiBot.PageUI.process_reprocess st name docId e h0 h1 h2 h3]
          dsimp only
          set st3 := SandiBot.PageUI.reprocessedState st (SandiBot.pyStrip name)
            docId e with hst3
          have hst3log : st3.factsLog = st.factsLog
              ++ SandiBot.PageUI.mkRows (SandiBot.pyStrip name) docId e := by
            rw [hst3]
            rfl
          have hst3idx : st3.index = SandiBot.Storage.register_processed_doc
              st.index (SandiBot.PageUI.client_slug (SandiBot.pyStrip name))
              docId := by
            rw [hst3]
            rfl
          have hpos : 1 ≤ st3.graph.nodeCount := by
            rw [hst3]
            exact SandiBot.BuildGraph.merge_nodeCount_pos _ _ _
          by_cases hs : SandiBot.Storage.client_slug (SandiBot.pyStrip name)
              = SandiBot.PageUI.client_slug (SandiBot.pyStrip name)
          · have h1b : SandiBot.Storage.client_has_doc_id st3.index
                (SandiBot.pyStrip name) docId = true := by
              rw [SandiBot.PageUI.client_has_doc_id_iff, hst3idx, hs]
              exact SandiBot.PageUI.register_self_mem _ _ _
            rw [SandiBot.PageUI.process_index st3 name docId e h0 h1b,
              SandiBot.PageUI.alreadyBranch_of_nodeCount_pos st3 hpos]
            exact ⟨rfl, rfl, rfl, fun _ _ => rfl⟩
          · have h1b : ¬ SandiBot.Storage.client_has_doc_id st3.index
                (SandiBot.pyStrip name) docId = true := by
              rw [SandiBot.PageUI.client_has_doc_id_iff, hst3idx,
                SandiBot.PageUI.register_other _ _ _ _ hs]
              intro hmem
              exact h1 ((SandiBot.PageUI.client_has_doc_id_iff _ _ _).mpr hmem)
            have hlegacy : SandiBot.Storage.load_facts_for_client st3.factsLog
                (SandiBot.pyStrip name) (some docId)
                  = SandiBot.PageUI.mkRows (SandiBot.pyStrip name) docId e := by
              rw [hst3log, SandiBot.PageUI.load_facts_append,
                List.isEmpty_iff.mp h2,
                SandiBot.PageUI.load_facts_mkRows _ _ _ h0]
              simp
            by_cases hfacts : e.facts = []
            · have hrows : SandiBot.PageUI.mkRows (SandiBot.pyStrip name) docId e
                  = [] := (SandiBot.PageUI.mkRows_nil_iff _ _ _).mpr hfacts
              have h2b : (SandiBot.Storage.load_facts_for_client st3.factsLog
                  (SandiBot.pyStrip name) (some docId)).isEmpty = true := by
                rw [hlegacy, hrows]
                rfl
              rw [SandiBot.PageUI.process_reprocess st3 name docId e h0 h1b h2b h3]
              dsimp only
              have h4log : (SandiBot.PageUI.reprocessedState st3
                  (SandiBot.pyStrip name) docId e).factsLog
                    = st3.factsLog
                      ++ SandiBot.PageUI.mkRows (SandiBot.pyStrip name) docId e :=
                rfl
              have h4graph : (SandiBot.PageUI.reprocessedState st3
                  (SandiBot.pyStrip name) docId e).graph
                    = SandiBot.BuildGraph.merge_facts_into_graph
                      (SandiBot.BuildGraph.load_graph st3.graph (st3.factsLog
                        ++ SandiBot.PageUI.mkRows (SandiBot.pyStrip name) docId e))
                      ⟨SandiBot.pyStrip name, docId, e.facts⟩ := rfl
              have hload2 : SandiBot.BuildGraph.load_graph st3.graph
                  (st3.factsLog
                    ++ SandiBot.PageUI.mkRows (SandiBot.pyStrip name) docId e)
                  = st3.graph := by
                unfold SandiBot.BuildGraph.load_graph
                rw [if_neg]
                simp only [Bool.and_eq_true, decide_eq_true_eq, not_and]
                intro hz
                omega
              have hcid : st3.graph.hasNode
                  (SandiBot.Ontology.client_id (SandiBot.pyStrip name)) = true := by
                rw [hst3]
                exact (SandiBot.BuildGraph.merge_hasNode _ _ _).1
              have hdid : st3.graph.hasNode
                  (SandiBot.Ontology.document_id docId) = true := by
                rw [hst3]
                exact (SandiBot.BuildGraph.merge_hasNode _ _ _).2
              have hmerge2 : SandiBot.BuildGraph.merge_facts_into_graph st3.graph
                  ⟨SandiBot.pyStrip name, docId, e.facts⟩
                  = ((st3.graph.addNode
                      (SandiBot.Ontology.client_id (SandiBot.pyStrip name))
                      ⟨"client", SandiBot.pyStrip name⟩).addNode
                      (SandiBot.Ontology.document_id docId) ⟨"doc", docId⟩) := by
                unfold SandiBot.BuildGraph.merge_facts_into_graph
                dsimp only
                rw [hfacts]
                rfl
              refine ⟨?_, ?_, ?_, fun H _ => absurd H.symm hs⟩
              · rw [h4log, hrows]
                simp
              · rw [h4graph, hload2, hmerge2,
                  SandiBot.BuildGraph.Graph.addNode_nodeCount_of_hasNode _ _ _
                    (SandiBot.BuildGraph.Graph.hasNode_addNode_mono _ _ _ _ hdid),
                  SandiBot.BuildGraph.Graph.addNode_nodeCount_of_hasNode _ _ _ hcid]
              · rw [h4graph, hload2, hmerge2,
                  SandiBot.BuildGraph.Graph.addNode_edgeCount,
                  SandiBot.BuildGraph.Graph.addNode_edgeCount]
            · have h2c : ¬ (SandiBot.Storage.load_facts_for_client st3.factsLog
                  (SandiBot.pyStrip name) (some docId)).isEmpty = true := by
                rw [hlegacy]
                intro hbad
                exact hfacts ((SandiBot.PageUI.mkRows_nil_iff _ _ _).mp
                  (List.isEmpty_iff.mp hbad))
              rw [SandiBot.PageUI.process_legacy st3 name docId e h0 h1b h2c]
              dsimp only
              rw [SandiBot.PageUI.alreadyBranch_set_index,
                SandiBot.PageUI.alreadyBranch_of_nodeCount_pos st3 hpos]
              exact ⟨rfl, rfl, rfl, fun H _ => absurd H.symm hs⟩
      · rw [SandiBot.PageUI.process_legacy st name docId e h0 h1 h2]
        dsimp only
        set stA := SandiBot.PageUI.alreadyBranch { st with index := SandiBot.Storage.register_processed_doc st.index (SandiBot.PageUI.client_slug (SandiBot.pyStrip name)) docId } with hstA
        have hAidx : stA.index = SandiBot.Storage.register_processed_doc st.index
            (SandiBot.PageUI.client_slug (SandiBot.pyStrip name)) docId := by
          rw [hstA, SandiBot.PageUI.alreadyBranch_index]
        have hAlog : stA.factsLog = st.factsLog := by
          rw [hstA, SandiBot.PageUI.alreadyBranch_factsLog]
        by_cases hs : SandiBot.Storage.client_slug (SandiBot.pyStrip name)
            = SandiBot.PageUI.client_slug (SandiBot.pyStrip name)
        · have h1b : SandiBot.Storage.client_has_doc_id stA.index
              (SandiBot.pyStrip name) docId = true := by
            rw [SandiBot.PageUI.client_has_doc_id_iff, hAidx, hs]
            exact SandiBot.PageUI.register_self_mem _ _ _
          rw [SandiBot.PageUI.process_index stA name docId e h0 h1b]
          dsimp only
          rw [hstA, SandiBot.PageUI.alreadyBranch_idem]
          exact ⟨rfl, rfl, rfl, fun _ _ => rfl⟩
        · have h1b : ¬ SandiBot.Storage.client_has_doc_id stA.index
              (SandiBot.pyStrip name) docId = true := by
            rw [SandiBot.PageUI.client_has_doc_id_iff, hAidx,
              SandiBot.PageUI.register_other _ _ _ _ hs]
            intro hmem
            exact h1 ((SandiBot.PageUI.client_has_doc_id_iff _ _ _).mpr hmem)
          have h2b : ¬ (SandiBot.Storage.load_facts_for_client stA.factsLog
              (SandiBot.pyStrip name) (some docId)).isEmpty = true := by
            rw [hAlog]
            exact h2
          rw [SandiBot.PageUI.process_legacy stA name docId e h0 h1b h2b]
          dsimp only
          rw [SandiBot.PageUI.alreadyBranch_set_index]
          rw [hstA, SandiBot.PageUI.alreadyBranch_idem]
          exact ⟨rfl, rfl, rfl, fun H _ => absurd H.symm hs⟩

/-- C1 witness: for `"Jane Doe"` (a proper slug) and a successful
extraction, the second submission is detected via the per-client index. -/
theorem c1_second_processing_is_noop_witness :
    (SandiBot.PageUI.processDocument
      (SandiBot.PageUI.processDocument
        ⟨[], fun _ => [], SandiBot.BuildGraph.Graph.empty⟩ "Jane Doe" "doc1"
        ⟨"Jane Doe", "doc1",
         [⟨"trait", "Collaborative spirit", 1,
           "Collaborative spirit in all team settings.", none⟩],
         2000, 1, "ok", 0, 0, 0, 0, [("trait", 1)], none⟩).1
      "Jane Doe" "doc1"
      ⟨"Jane Doe", "doc1",
       [⟨"trait", "Collaborative spirit", 1,
         "Collaborative spirit in all team settings.", none⟩],
       2000, 1, "ok", 0, 0, 0, 0, [("trait", 1)], none⟩).2
      = SandiBot.PageUI.Detection.index :=
  (c1_second_processing_is_noop
    ⟨[], fun _ => [], SandiBot.BuildGraph.Graph.empty⟩ "Jane Doe" "doc1"
    ⟨"Jane Doe", "doc1",
     [⟨"trait", "Collaborative spirit", 1,
       "Collaborative spirit in all team settings.", none⟩],
     2000, 1, "ok", 0, 0, 0, 0, [("trait", 1)], none⟩).2.2.2
    (by decide) (by decide)
